import Mathlib

/-!
Verification development for the kbinxml codec (kamyu1537/kbinxml-rs).

The Rust sources embedded here: `src/value.rs` (Value, from_standard_type,
from_string, to_bytes), `src/value/array.rs` (ValueArray), and
`src/text_reader.rs` (TextXmlReader handlers).  Machine integers are
modelled as Int/Nat with explicit range predicates; byte strings as
`List Nat` with every entry below 256; IEEE-754 floats are carried as
their raw bit patterns (the codec only moves their bytes, and Rust's
`f32::from_bits`/`to_bits` are bit-exact inverses).  Rust panics
(index out of bounds, division by zero) are modelled by an explicit
`PResult.panic` constructor, distinct from `Result::Err`.
-/

namespace Kbin

/-- Result of running a Rust function: a normal `Result::Ok`, a
`Result::Err`, or a panic (index out of bounds, division by zero, ...). -/
inductive PResult (ε : Type) (α : Type) where
  | panic (msg : String)
  | err (e : ε)
  | ok (a : α)
  deriving DecidableEq, Repr

namespace PResult

def bind {ε α β : Type} : PResult ε α → (α → PResult ε β) → PResult ε β
  | .panic m, _ => .panic m
  | .err e, _ => .err e
  | .ok a, f => f a

instance {ε : Type} : Monad (PResult ε) where
  pure := .ok
  bind := bind

/-- The run ended in `Result::Err` (not a panic, not a success). -/
def isErr {ε α : Type} : PResult ε α → Prop
  | .err _ => True
  | _ => False

instance {ε α : Type} (r : PResult ε α) : Decidable (r.isErr) := by
  cases r <;> simp [isErr] <;> infer_instance

end PResult

/-- Alias for `String`; inside the `StandardType` and `Value` namespaces
the constructor named `String` shadows the builtin type. -/
abbrev Str := String

/-- Modelled from the spec: the repository's `node_types.rs` (the
`StandardType` registry) is not under `src/`; the constructor list is
taken from the `Value` union in `src/value.rs` plus the sentinel tags
named in spec section 3. -/
inductive StandardType where
  | NodeStart | S8 | U8 | S16 | U16 | S32 | U32 | S64 | U64
  | Binary | String | Ip4 | Time | Float | Double
  | S8_2 | U8_2 | S16_2 | U16_2 | S32_2 | U32_2 | S64_2 | U64_2
  | Float2 | Double2
  | S8_3 | U8_3 | S16_3 | U16_3 | S32_3 | U32_3 | S64_3 | U64_3
  | Float3 | Double3
  | S8_4 | U8_4 | S16_4 | U16_4 | S32_4 | U32_4 | S64_4 | U64_4
  | Float4 | Double4
  | Attribute
  | Vs8 | Vu8 | Vs16 | Vu16
  | Boolean | Boolean2 | Boolean3 | Boolean4 | Vb
  | NodeEnd | FileEnd
  deriving DecidableEq, Repr

/-- Modelled from the spec: byte width of one element (`TypeSpec.size`),
spec section 4.6; 0 for the length-prefixed and sentinel tags. -/
def StandardType.size : StandardType → Nat
  | .NodeStart | .NodeEnd | .FileEnd | .Attribute | .String | .Binary => 0
  | .S8 | .U8 | .Boolean | .Ip4 => 1
  | .S16 | .U16 => 2
  | .S32 | .U32 | .Float | .Time => 4
  | .S64 | .U64 | .Double => 8
  | .S8_2 | .U8_2 | .Boolean2 => 1
  | .S8_3 | .U8_3 | .Boolean3 => 1
  | .S8_4 | .U8_4 | .Boolean4 => 1
  | .Vs8 | .Vu8 | .Vb => 1
  | .S16_2 | .U16_2 | .S16_3 | .U16_3 | .S16_4 | .U16_4 | .Vs16 | .Vu16 => 2
  | .S32_2 | .U32_2 | .S32_3 | .U32_3 | .S32_4 | .U32_4 => 4
  | .Float2 | .Float3 | .Float4 => 4
  | .S64_2 | .U64_2 | .S64_3 | .U64_3 | .S64_4 | .U64_4 => 8
  | .Double2 | .Double3 | .Double4 => 8

/-- Modelled from the spec: elements per value (`TypeSpec.count`),
spec section 4.6 (1 for scalars, 2/3/4 for vectors, 8/16 for the wide
vectors, 4 for `ip4`). -/
def StandardType.count : StandardType → Nat
  | .NodeStart | .NodeEnd | .FileEnd | .Attribute | .String | .Binary => 1
  | .S8 | .U8 | .Boolean | .S16 | .U16 | .S32 | .U32 | .S64 | .U64
  | .Float | .Double | .Time => 1
  | .Ip4 => 4
  | .S8_2 | .U8_2 | .Boolean2 | .S16_2 | .U16_2 | .S32_2 | .U32_2
  | .S64_2 | .U64_2 | .Float2 | .Double2 => 2
  | .S8_3 | .U8_3 | .Boolean3 | .S16_3 | .U16_3 | .S32_3 | .U32_3
  | .S64_3 | .U64_3 | .Float3 | .Double3 => 3
  | .S8_4 | .U8_4 | .Boolean4 | .S16_4 | .U16_4 | .S32_4 | .U32_4
  | .S64_4 | .U64_4 | .Float4 | .Double4 => 4
  | .Vs16 | .Vu16 => 8
  | .Vs8 | .Vu8 | .Vb => 16

/-- `node_type.size * node_type.count`, the recurring on-wire byte
length of one value, as computed at the top of `Value::from_standard_type`. -/
def StandardType.nodeSize (t : StandardType) : Nat := t.size * t.count

/-- Modelled from the spec: canonical lowercase type names
(spec section 4.1 and the examples in section 4.6). -/
def StandardType.name : StandardType → Str
  | .NodeStart => "void"
  | .S8 => "s8" | .U8 => "u8" | .S16 => "s16" | .U16 => "u16"
  | .S32 => "s32" | .U32 => "u32" | .S64 => "s64" | .U64 => "u64"
  | .Binary => "bin" | .String => "str" | .Ip4 => "ip4" | .Time => "time"
  | .Float => "float" | .Double => "double"
  | .S8_2 => "2s8" | .U8_2 => "2u8" | .S16_2 => "2s16" | .U16_2 => "2u16"
  | .S32_2 => "2s32" | .U32_2 => "2u32" | .S64_2 => "2s64" | .U64_2 => "2u64"
  | .Float2 => "2f" | .Double2 => "2d"
  | .S8_3 => "3s8" | .U8_3 => "3u8" | .S16_3 => "3s16" | .U16_3 => "3u16"
  | .S32_3 => "3s32" | .U32_3 => "3u32" | .S64_3 => "3s64" | .U64_3 => "3u64"
  | .Float3 => "3f" | .Double3 => "3d"
  | .S8_4 => "4s8" | .U8_4 => "4u8" | .S16_4 => "4s16" | .U16_4 => "4u16"
  | .S32_4 => "4s32" | .U32_4 => "4u32" | .S64_4 => "4s64" | .U64_4 => "4u64"
  | .Float4 => "4f" | .Double4 => "4d"
  | .Attribute => "attr"
  | .Vs8 => "vs8" | .Vu8 => "vu8" | .Vs16 => "vs16" | .Vu16 => "vu16"
  | .Boolean => "bool" | .Boolean2 => "2b" | .Boolean3 => "3b"
  | .Boolean4 => "4b" | .Vb => "vb"
  | .NodeEnd => "nodeEnd" | .FileEnd => "endSection"

/-- Every constructor, for registry lookups by name. -/
def StandardType.allTypes : List StandardType :=
  [.NodeStart, .S8, .U8, .S16, .U16, .S32, .U32, .S64, .U64,
   .Binary, .String, .Ip4, .Time, .Float, .Double,
   .S8_2, .U8_2, .S16_2, .U16_2, .S32_2, .U32_2, .S64_2, .U64_2,
   .Float2, .Double2,
   .S8_3, .U8_3, .S16_3, .U16_3, .S32_3, .U32_3, .S64_3, .U64_3,
   .Float3, .Double3,
   .S8_4, .U8_4, .S16_4, .U16_4, .S32_4, .U32_4, .S64_4, .U64_4,
   .Float4, .Double4,
   .Attribute,
   .Vs8, .Vu8, .Vs16, .Vu16,
   .Boolean, .Boolean2, .Boolean3, .Boolean4, .Vb,
   .NodeEnd, .FileEnd]

/-- Modelled from the spec: `StandardType::from_name` (registry lookup
`by_name`, spec section 4.1), a total immutable table with no synonyms. -/
def StandardType.from_name (s : Str) : Option StandardType :=
  StandardType.allTypes.find? (fun t => t.name = s)

/-- Closed error taxonomy (`KbinErrorKind` in the repository's error
module); only the variants reached by the embedded functions appear. -/
inductive KErr where
  | sizeMismatch (t : StandardType) (expected got : Nat)
  | invalidBoolean (b : Nat)
  | invalidState
  | invalidNodeType (t : StandardType)
  | stringParse (name : String)
  | stringParseInt (what : String)
  | hexError
  | invalidKbinType
  | utf8Error
  deriving DecidableEq, Repr

/-- Big-endian byte string (most significant byte first) of the low
`w` bytes of `x`; mirrors `byteorder::BigEndian` writes. -/
def beBytes : Nat → Nat → List Nat
  | 0, _ => []
  | w + 1, x => beBytes w (x / 256) ++ [x % 256]

/-- Big-endian read of a whole byte string; mirrors
`byteorder::BigEndian` reads. -/
def beRead (l : List Nat) : Nat := l.foldl (fun a b => a * 256 + b) 0

/-- Reinterpret a `w`-byte unsigned pattern as a two's-complement
signed integer (`as i8`, `read_i16`, ...). -/
def toSigned (w : Nat) (p : Nat) : Int :=
  if p < 2 ^ (8 * w - 1) then (p : Int) else (p : Int) - 2 ^ (8 * w)

/-- The `w`-byte two's-complement pattern of a signed integer
(`as u8`, `write_i16`, ...). -/
def fromSigned (w : Nat) (n : Int) : Nat := (n % ((2 : Int) ^ (8 * w))).toNat

/-- `slice::chunks`: split into consecutive chunks of `k` elements, the
last chunk possibly shorter.  (Rust panics on `k = 0`; callers in this
development guard that case before calling.) -/
def chunks (k : Nat) : List α → List (List α)
  | [] => []
  | x :: xs => (x :: xs).take k :: chunks k (xs.drop (k - 1))
termination_by l => l.length
decreasing_by
  simp only [List.length_cons, List.length_drop]
  omega

/-- `PResult`-valued traversal of a list, aborting on the first panic
or error: models Rust loops that `?`-propagate per element. -/
def pmapM {ε α β : Type} (f : α → PResult ε β) : List α → PResult ε (List β)
  | [] => .ok []
  | a :: rest => (f a).bind fun b => (pmapM f rest).bind fun bs => .ok (b :: bs)

/-- The in-memory tree node (`Node` in `src/node/mod.rs`), parametric in
the value type so it can be nested inside `Value`.  `attributes` models
`indexmap::IndexMap<String, String>` as an association list in insertion
order. -/
inductive KNodeP (V : Type) where
  | mk (key : String) (attributes : Option (List (String × String)))
       (children : Option (List (KNodeP V))) (value : Option V)

/-- The `Value` union from `src/value.rs` (`construct_types!` plus the
hand-written `Binary`/`Time`/`Attribute`/`Array`/`Node` variants).
Fixed-arity Rust arrays `[T; k]` are carried as lists whose length is
constrained by `Value.inRange`; `f32`/`f64` are carried as raw bit
patterns; `Ipv4Addr` as its four octets. -/
inductive Value where
  | S8 (n : Int)
  | U8 (n : Nat)
  | S16 (n : Int)
  | U16 (n : Nat)
  | S32 (n : Int)
  | U32 (n : Nat)
  | S64 (n : Int)
  | U64 (n : Nat)
  | String (s : Str)
  | Ip4 (octets : List Nat)
  | Float (bits : Nat)
  | Double (bits : Nat)
  | S8_2 (xs : List Int) | U8_2 (xs : List Nat)
  | S16_2 (xs : List Int) | U16_2 (xs : List Nat)
  | S32_2 (xs : List Int) | U32_2 (xs : List Nat)
  | S64_2 (xs : List Int) | U64_2 (xs : List Nat)
  | Float2 (xs : List Nat) | Double2 (xs : List Nat)
  | S8_3 (xs : List Int) | U8_3 (xs : List Nat)
  | S16_3 (xs : List Int) | U16_3 (xs : List Nat)
  | S32_3 (xs : List Int) | U32_3 (xs : List Nat)
  | S64_3 (xs : List Int) | U64_3 (xs : List Nat)
  | Float3 (xs : List Nat) | Double3 (xs : List Nat)
  | S8_4 (xs : List Int) | U8_4 (xs : List Nat)
  | S16_4 (xs : List Int) | U16_4 (xs : List Nat)
  | S32_4 (xs : List Int) | U32_4 (xs : List Nat)
  | S64_4 (xs : List Int) | U64_4 (xs : List Nat)
  | Float4 (xs : List Nat) | Double4 (xs : List Nat)
  | Vs8 (xs : List Int) | Vu8 (xs : List Nat)
  | Vs16 (xs : List Int) | Vu16 (xs : List Nat)
  | Boolean (b : Bool)
  | Boolean2 (xs : List Bool) | Boolean3 (xs : List Bool)
  | Boolean4 (xs : List Bool) | Vb (xs : List Bool)
  | Binary (data : List Nat)
  | Time (n : Nat)
  | Attribute (s : Str)
  | Array (t : StandardType) (values : List Value)
  | Node (n : KNodeP Value)

/-- `Node` as used by the rest of the crate. -/
abbrev Node := KNodeP Value

/-- `Value::standard_type` from `src/value.rs`. -/
def Value.standard_type : Value → StandardType
  | .S8 _ => .S8 | .U8 _ => .U8 | .S16 _ => .S16 | .U16 _ => .U16
  | .S32 _ => .S32 | .U32 _ => .U32 | .S64 _ => .S64 | .U64 _ => .U64
  | .String _ => .String | .Ip4 _ => .Ip4
  | .Float _ => .Float | .Double _ => .Double
  | .S8_2 _ => .S8_2 | .U8_2 _ => .U8_2 | .S16_2 _ => .S16_2
  | .U16_2 _ => .U16_2 | .S32_2 _ => .S32_2 | .U32_2 _ => .U32_2
  | .S64_2 _ => .S64_2 | .U64_2 _ => .U64_2
  | .Float2 _ => .Float2 | .Double2 _ => .Double2
  | .S8_3 _ => .S8_3 | .U8_3 _ => .U8_3 | .S16_3 _ => .S16_3
  | .U16_3 _ => .U16_3 | .S32_3 _ => .S32_3 | .U32_3 _ => .U32_3
  | .S64_3 _ => .S64_3 | .U64_3 _ => .U64_3
  | .Float3 _ => .Float3 | .Double3 _ => .Double3
  | .S8_4 _ => .S8_4 | .U8_4 _ => .U8_4 | .S16_4 _ => .S16_4
  | .U16_4 _ => .U16_4 | .S32_4 _ => .S32_4 | .U32_4 _ => .U32_4
  | .S64_4 _ => .S64_4 | .U64_4 _ => .U64_4
  | .Float4 _ => .Float4 | .Double4 _ => .Double4
  | .Vs8 _ => .Vs8 | .Vu8 _ => .Vu8 | .Vs16 _ => .Vs16 | .Vu16 _ => .Vu16
  | .Boolean _ => .Boolean
  | .Boolean2 _ => .Boolean2 | .Boolean3 _ => .Boolean3
  | .Boolean4 _ => .Boolean4 | .Vb _ => .Vb
  | .Binary _ => .Binary
  | .Time _ => .Time
  | .Attribute _ => .Attribute
  | .Array t _ => t
  | .Node _ => .NodeStart

/-- Decode one signed big-endian element of byte width `w`
(`BigEndian::read_iN` and `as i8`). -/
def decS (w : Nat) (c : List Nat) : Int := toSigned w (beRead c)

/-- Encode one signed element as `w` big-endian bytes
(`WriteBytesExt::write_iN` and `as u8`). -/
def encS (w : Nat) (n : Int) : List Nat := beBytes w (fromSigned w n)

/-- Encode one boolean as its kbin byte (`0x01`/`0x00`). -/
def encB (b : Bool) : Nat := if b then 1 else 0

mutual

/-- `Value::to_bytes_inner` from `src/value.rs` (the buffer is modelled
by returning the appended bytes); `to_bytes` then runs it on an empty
buffer.  Errors exactly where the source does (`Attribute`, `String`,
`Node`); the `io::Write` impl for `Vec<u8>` is infallible, so the
`DataWrite` contexts are never reached. -/
def Value.to_bytes : Value → PResult KErr (List Nat)
  | .S8 n => .ok (encS 1 n)
  | .U8 n => .ok (beBytes 1 n)
  | .S16 n => .ok (encS 2 n)
  | .U16 n => .ok (beBytes 2 n)
  | .S32 n => .ok (encS 4 n)
  | .U32 n => .ok (beBytes 4 n)
  | .S64 n => .ok (encS 8 n)
  | .U64 n => .ok (beBytes 8 n)
  | .Binary data => .ok data
  | .Time n => .ok (beBytes 4 n)
  | .Ip4 octets => .ok octets
  | .Float bits => .ok (beBytes 4 bits)
  | .Double bits => .ok (beBytes 8 bits)
  | .Boolean b => .ok [encB b]
  | .Array _ values => Value.to_bytes_list values
  | .Attribute s => .err (.invalidNodeType (Value.Attribute s).standard_type)
  | .String s => .err (.invalidNodeType (Value.String s).standard_type)
  | .Node n => .err (.invalidNodeType (Value.Node n).standard_type)
  | .S8_2 xs => .ok (xs.flatMap (encS 1))
  | .S8_3 xs => .ok (xs.flatMap (encS 1))
  | .S8_4 xs => .ok (xs.flatMap (encS 1))
  | .Vs8 xs => .ok (xs.flatMap (encS 1))
  | .U8_2 xs => .ok (xs.flatMap (beBytes 1))
  | .U8_3 xs => .ok (xs.flatMap (beBytes 1))
  | .U8_4 xs => .ok (xs.flatMap (beBytes 1))
  | .Vu8 xs => .ok (xs.flatMap (beBytes 1))
  | .Boolean2 xs => .ok (xs.map encB)
  | .Boolean3 xs => .ok (xs.map encB)
  | .Boolean4 xs => .ok (xs.map encB)
  | .Vb xs => .ok (xs.map encB)
  | .S16_2 xs => .ok (xs.flatMap (encS 2))
  | .S16_3 xs => .ok (xs.flatMap (encS 2))
  | .S16_4 xs => .ok (xs.flatMap (encS 2))
  | .Vs16 xs => .ok (xs.flatMap (encS 2))
  | .S32_2 xs => .ok (xs.flatMap (encS 4))
  | .S32_3 xs => .ok (xs.flatMap (encS 4))
  | .S32_4 xs => .ok (xs.flatMap (encS 4))
  | .S64_2 xs => .ok (xs.flatMap (encS 8))
  | .S64_3 xs => .ok (xs.flatMap (encS 8))
  | .S64_4 xs => .ok (xs.flatMap (encS 8))
  | .U16_2 xs => .ok (xs.flatMap (beBytes 2))
  | .U16_3 xs => .ok (xs.flatMap (beBytes 2))
  | .U16_4 xs => .ok (xs.flatMap (beBytes 2))
  | .Vu16 xs => .ok (xs.flatMap (beBytes 2))
  | .U32_2 xs => .ok (xs.flatMap (beBytes 4))
  | .U32_3 xs => .ok (xs.flatMap (beBytes 4))
  | .U32_4 xs => .ok (xs.flatMap (beBytes 4))
  | .U64_2 xs => .ok (xs.flatMap (beBytes 8))
  | .U64_3 xs => .ok (xs.flatMap (beBytes 8))
  | .U64_4 xs => .ok (xs.flatMap (beBytes 8))
  | .Float2 xs => .ok (xs.flatMap (beBytes 4))
  | .Float3 xs => .ok (xs.flatMap (beBytes 4))
  | .Float4 xs => .ok (xs.flatMap (beBytes 4))
  | .Double2 xs => .ok (xs.flatMap (beBytes 8))
  | .Double3 xs => .ok (xs.flatMap (beBytes 8))
  | .Double4 xs => .ok (xs.flatMap (beBytes 8))

/-- The `Value::Array` arm of `to_bytes_inner`: serialize each element
in order into the shared buffer, aborting on the first error. -/
def Value.to_bytes_list : List Value → PResult KErr (List Nat)
  | [] => .ok []
  | v :: vs =>
      (Value.to_bytes v).bind fun bs =>
        (Value.to_bytes_list vs).bind fun rest => .ok (bs ++ rest)

end

/-- The byte-loop of the boolean-vector arms of
`Value::from_standard_type`: each byte must be `0x00` or `0x01`,
anything else is `InvalidBooleanInput`, reported at the first offender. -/
def parseBools : List Nat → PResult KErr (List Bool)
  | [] => .ok []
  | b :: bs =>
      if b = 0 then (parseBools bs).bind fun rest => .ok (false :: rest)
      else if b = 1 then (parseBools bs).bind fun rest => .ok (true :: rest)
      else .err (.invalidBoolean b)

/-- The `is_array == false` body of `Value::from_standard_type`
(`src/value.rs` lines 44-129): sentinel and string tags yield
`Ok(None)`; every other tag is decoded from exactly
`size * count` bytes (the length was checked beforehand, so the
slice indexing of the source never panics and whole-input reads
below are equivalent to the source's indexed reads). -/
def Value.from_standard_type_single (t : StandardType) (input : List Nat) :
    PResult KErr (Option Value) :=
  let ns := t.nodeSize
  -- the size check is skipped only for `String` and `Binary`
  if ¬ (t = .String ∨ t = .Binary) ∧ input.length ≠ ns then
    .err (.sizeMismatch t ns input.length)
  else
    match t with
    | .NodeStart | .NodeEnd | .FileEnd | .Attribute | .String => .ok none
    | .S8 => .ok (some (.S8 (decS 1 input)))
    | .U8 => .ok (some (.U8 (beRead input)))
    | .S16 => .ok (some (.S16 (decS 2 input)))
    | .U16 => .ok (some (.U16 (beRead input)))
    | .S32 => .ok (some (.S32 (decS 4 input)))
    | .U32 => .ok (some (.U32 (beRead input)))
    | .S64 => .ok (some (.S64 (decS 8 input)))
    | .U64 => .ok (some (.U64 (beRead input)))
    | .Binary => .ok (some (.Binary input))
    | .Time => .ok (some (.Time (beRead input)))
    | .Ip4 => .ok (some (.Ip4 input))
    | .Float => .ok (some (.Float (beRead input)))
    | .Double => .ok (some (.Double (beRead input)))
    | .Boolean =>
        let b := input.headD 0
        if b = 0 then .ok (some (.Boolean false))
        else if b = 1 then .ok (some (.Boolean true))
        else .err (.invalidBoolean b)
    | .S8_2 => .ok (some (.S8_2 (input.map (fun b => toSigned 1 b))))
    | .S8_3 => .ok (some (.S8_3 (input.map (fun b => toSigned 1 b))))
    | .S8_4 => .ok (some (.S8_4 (input.map (fun b => toSigned 1 b))))
    | .Vs8 => .ok (some (.Vs8 (input.map (fun b => toSigned 1 b))))
    | .U8_2 => .ok (some (.U8_2 input))
    | .U8_3 => .ok (some (.U8_3 input))
    | .U8_4 => .ok (some (.U8_4 input))
    | .Vu8 => .ok (some (.Vu8 input))
    | .Boolean2 => (parseBools input).bind fun bs => .ok (some (.Boolean2 bs))
    | .Boolean3 => (parseBools input).bind fun bs => .ok (some (.Boolean3 bs))
    | .Boolean4 => (parseBools input).bind fun bs => .ok (some (.Boolean4 bs))
    | .Vb => (parseBools input).bind fun bs => .ok (some (.Vb bs))
    | .S16_2 => .ok (some (.S16_2 ((chunks 2 input).map (decS 2))))
    | .S16_3 => .ok (some (.S16_3 ((chunks 2 input).map (decS 2))))
    | .S16_4 => .ok (some (.S16_4 ((chunks 2 input).map (decS 2))))
    | .Vs16 => .ok (some (.Vs16 ((chunks 2 input).map (decS 2))))
    | .S32_2 => .ok (some (.S32_2 ((chunks 4 input).map (decS 4))))
    | .S32_3 => .ok (some (.S32_3 ((chunks 4 input).map (decS 4))))
    | .S32_4 => .ok (some (.S32_4 ((chunks 4 input).map (decS 4))))
    | .S64_2 => .ok (some (.S64_2 ((chunks 8 input).map (decS 8))))
    | .S64_3 => .ok (some (.S64_3 ((chunks 8 input).map (decS 8))))
    | .S64_4 => .ok (some (.S64_4 ((chunks 8 input).map (decS 8))))
    | .U16_2 => .ok (some (.U16_2 ((chunks 2 input).map beRead)))
    | .U16_3 => .ok (some (.U16_3 ((chunks 2 input).map beRead)))
    | .U16_4 => .ok (some (.U16_4 ((chunks 2 input).map beRead)))
    | .Vu16 => .ok (some (.Vu16 ((chunks 2 input).map beRead)))
    | .U32_2 => .ok (some (.U32_2 ((chunks 4 input).map beRead)))
    | .U32_3 => .ok (some (.U32_3 ((chunks 4 input).map beRead)))
    | .U32_4 => .ok (some (.U32_4 ((chunks 4 input).map beRead)))
    | .U64_2 => .ok (some (.U64_2 ((chunks 8 input).map beRead)))
    | .U64_3 => .ok (some (.U64_3 ((chunks 8 input).map beRead)))
    | .U64_4 => .ok (some (.U64_4 ((chunks 8 input).map beRead)))
    | .Float2 => .ok (some (.Float2 ((chunks 4 input).map beRead)))
    | .Float3 => .ok (some (.Float3 ((chunks 4 input).map beRead)))
    | .Float4 => .ok (some (.Float4 ((chunks 4 input).map beRead)))
    | .Double2 => .ok (some (.Double2 ((chunks 8 input).map beRead)))
    | .Double3 => .ok (some (.Double3 ((chunks 8 input).map beRead)))
    | .Double4 => .ok (some (.Double4 ((chunks 8 input).map beRead)))

/-- One chunk of the `is_array` loop of `Value::from_standard_type`:
the recursive call `Value::from_standard_type(node_type, false, chunk)?`
followed by the `Some`/`None` match (a `None` chunk is `InvalidState`). -/
def Value.parseChunk (t : StandardType) (chunk : List Nat) :
    PResult KErr Value :=
  (Value.from_standard_type_single t chunk).bind fun o =>
    match o with
    | some v => .ok v
    | none => .err .invalidState

/-- `Value::from_standard_type` from `src/value.rs`.  The `is_array`
branch chunks the input by `size * count` (Rust's `slice::chunks`
panics when that product is zero) and parses each chunk with the
scalar body at `is_array == false`, turning a `None` chunk result
into `InvalidState`. -/
def Value.from_standard_type (t : StandardType) (is_array : Bool)
    (input : List Nat) : PResult KErr (Option Value) :=
  if is_array then
    let ns := t.nodeSize
    if ns = 0 then .panic "chunk size must be non-zero"
    else
      (pmapM (Value.parseChunk t) (chunks ns input)).bind fun values =>
      .ok (some (.Array t values))
  else Value.from_standard_type_single t input

/-- True for the `Value` shapes of fixed on-wire size: every variant
except the length-prefixed `String`/`Binary`, the string-valued
`Attribute`, and the composite `Array`/`Node`. -/
def Value.isFixedSize : Value → Bool
  | .String _ | .Binary _ | .Attribute _ | .Array _ _ | .Node _ => false
  | _ => true

/-- One signed element fits in `w` bytes (the payload invariant of the
Rust `iN` fields). -/
def sIn (w : Nat) (n : Int) : Bool :=
  decide (-(2 ^ (8 * w - 1)) ≤ n) && decide (n < 2 ^ (8 * w - 1))

/-- One unsigned element fits in `w` bytes (the payload invariant of
the Rust `uN` fields and the float bit patterns). -/
def uIn (w : Nat) (n : Nat) : Bool := decide (n < 2 ^ (8 * w))

/-- The well-formedness invariant the Rust types enforce statically:
list payloads have the arity of their `[T; k]` array and every element
fits its machine-integer width. -/
def Value.inRange : Value → Bool
  | .S8 n => sIn 1 n
  | .U8 n => uIn 1 n
  | .S16 n => sIn 2 n
  | .U16 n => uIn 2 n
  | .S32 n => sIn 4 n
  | .U32 n => uIn 4 n
  | .S64 n => sIn 8 n
  | .U64 n => uIn 8 n
  | .String _ => true
  | .Ip4 xs => xs.length = 4 && xs.all (uIn 1)
  | .Float bits => uIn 4 bits
  | .Double bits => uIn 8 bits
  | .S8_2 xs => xs.length = 2 && xs.all (sIn 1)
  | .S8_3 xs => xs.length = 3 && xs.all (sIn 1)
  | .S8_4 xs => xs.length = 4 && xs.all (sIn 1)
  | .Vs8 xs => xs.length = 16 && xs.all (sIn 1)
  | .U8_2 xs => xs.length = 2 && xs.all (uIn 1)
  | .U8_3 xs => xs.length = 3 && xs.all (uIn 1)
  | .U8_4 xs => xs.length = 4 && xs.all (uIn 1)
  | .Vu8 xs => xs.length = 16 && xs.all (uIn 1)
  | .S16_2 xs => xs.length = 2 && xs.all (sIn 2)
  | .S16_3 xs => xs.length = 3 && xs.all (sIn 2)
  | .S16_4 xs => xs.length = 4 && xs.all (sIn 2)
  | .Vs16 xs => xs.length = 8 && xs.all (sIn 2)
  | .U16_2 xs => xs.length = 2 && xs.all (uIn 2)
  | .U16_3 xs => xs.length = 3 && xs.all (uIn 2)
  | .U16_4 xs => xs.length = 4 && xs.all (uIn 2)
  | .Vu16 xs => xs.length = 8 && xs.all (uIn 2)
  | .S32_2 xs => xs.length = 2 && xs.all (sIn 4)
  | .S32_3 xs => xs.length = 3 && xs.all (sIn 4)
  | .S32_4 xs => xs.length = 4 && xs.all (sIn 4)
  | .U32_2 xs => xs.length = 2 && xs.all (uIn 4)
  | .U32_3 xs => xs.length = 3 && xs.all (uIn 4)
  | .U32_4 xs => xs.length = 4 && xs.all (uIn 4)
  | .S64_2 xs => xs.length = 2 && xs.all (sIn 8)
  | .S64_3 xs => xs.length = 3 && xs.all (sIn 8)
  | .S64_4 xs => xs.length = 4 && xs.all (sIn 8)
  | .U64_2 xs => xs.length = 2 && xs.all (uIn 8)
  | .U64_3 xs => xs.length = 3 && xs.all (uIn 8)
  | .U64_4 xs => xs.length = 4 && xs.all (uIn 8)
  | .Float2 xs => xs.length = 2 && xs.all (uIn 4)
  | .Float3 xs => xs.length = 3 && xs.all (uIn 4)
  | .Float4 xs => xs.length = 4 && xs.all (uIn 4)
  | .Double2 xs => xs.length = 2 && xs.all (uIn 8)
  | .Double3 xs => xs.length = 3 && xs.all (uIn 8)
  | .Double4 xs => xs.length = 4 && xs.all (uIn 8)
  | .Boolean _ => true
  | .Boolean2 xs => xs.length = 2
  | .Boolean3 xs => xs.length = 3
  | .Boolean4 xs => xs.length = 4
  | .Vb xs => xs.length = 16
  | .Binary data => data.all (uIn 1)
  | .Time n => uIn 4 n
  | .Attribute _ => true
  | .Array _ _ => false
  | .Node _ => false

/-- Modelled from the spec: the element decoder `FromKbinBytes`
(the repository's `types` module is not under `src/`); per spec
section 4.6 an element is its `size * count` raw big-endian bytes,
and a boolean byte outside {0,1} is `InvalidBoolean`. -/
def parseBoolByte (b : Nat) : PResult KErr Bool :=
  if b = 0 then .ok false
  else if b = 1 then .ok true
  else .err (.invalidBoolean b)

/-- The `ValueArray` union from `src/value/array.rs`: one `Vec` of
decoded elements per primitive type.  Fixed-arity element arrays are
carried as inner lists. -/
inductive ValueArray where
  | S8 (xs : List Int)
  | U8 (xs : List Nat)
  | S16 (xs : List Int)
  | U16 (xs : List Nat)
  | S32 (xs : List Int)
  | U32 (xs : List Nat)
  | S64 (xs : List Int)
  | U64 (xs : List Nat)
  | Ip4 (xs : List (List Nat))
  | Float (xs : List Nat)
  | Double (xs : List Nat)
  | S8_2 (xs : List (List Int)) | U8_2 (xs : List (List Nat))
  | S16_2 (xs : List (List Int)) | U16_2 (xs : List (List Nat))
  | S32_2 (xs : List (List Int)) | U32_2 (xs : List (List Nat))
  | S64_2 (xs : List (List Int)) | U64_2 (xs : List (List Nat))
  | Float2 (xs : List (List Nat)) | Double2 (xs : List (List Nat))
  | S8_3 (xs : List (List Int)) | U8_3 (xs : List (List Nat))
  | S16_3 (xs : List (List Int)) | U16_3 (xs : List (List Nat))
  | S32_3 (xs : List (List Int)) | U32_3 (xs : List (List Nat))
  | S64_3 (xs : List (List Int)) | U64_3 (xs : List (List Nat))
  | Float3 (xs : List (List Nat)) | Double3 (xs : List (List Nat))
  | S8_4 (xs : List (List Int)) | U8_4 (xs : List (List Nat))
  | S16_4 (xs : List (List Int)) | U16_4 (xs : List (List Nat))
  | S32_4 (xs : List (List Int)) | U32_4 (xs : List (List Nat))
  | S64_4 (xs : List (List Int)) | U64_4 (xs : List (List Nat))
  | Float4 (xs : List (List Nat)) | Double4 (xs : List (List Nat))
  | Vs8 (xs : List (List Int)) | Vu8 (xs : List (List Nat))
  | Vs16 (xs : List (List Int)) | Vu16 (xs : List (List Nat))
  | Boolean (xs : List Bool)
  | Boolean2 (xs : List (List Bool)) | Boolean3 (xs : List (List Bool))
  | Boolean4 (xs : List (List Bool)) | Vb (xs : List (List Bool))

/-- Number of decoded array elements (`values.len()` of the inner `Vec`). -/
def ValueArray.numElements : ValueArray → Nat
  | .S8 xs => xs.length | .U8 xs => xs.length
  | .S16 xs => xs.length | .U16 xs => xs.length
  | .S32 xs => xs.length | .U32 xs => xs.length
  | .S64 xs => xs.length | .U64 xs => xs.length
  | .Ip4 xs => xs.length | .Float xs => xs.length | .Double xs => xs.length
  | .S8_2 xs => xs.length | .U8_2 xs => xs.length
  | .S16_2 xs => xs.length | .U16_2 xs => xs.length
  | .S32_2 xs => xs.length | .U32_2 xs => xs.length
  | .S64_2 xs => xs.length | .U64_2 xs => xs.length
  | .Float2 xs => xs.length | .Double2 xs => xs.length
  | .S8_3 xs => xs.length | .U8_3 xs => xs.length
  | .S16_3 xs => xs.length | .U16_3 xs => xs.length
  | .S32_3 xs => xs.length | .U32_3 xs => xs.length
  | .S64_3 xs => xs.length | .U64_3 xs => xs.length
  | .Float3 xs => xs.length | .Double3 xs => xs.length
  | .S8_4 xs => xs.length | .U8_4 xs => xs.length
  | .S16_4 xs => xs.length | .U16_4 xs => xs.length
  | .S32_4 xs => xs.length | .U32_4 xs => xs.length
  | .S64_4 xs => xs.length | .U64_4 xs => xs.length
  | .Float4 xs => xs.length | .Double4 xs => xs.length
  | .Vs8 xs => xs.length | .Vu8 xs => xs.length
  | .Vs16 xs => xs.length | .Vu16 xs => xs.length
  | .Boolean xs => xs.length
  | .Boolean2 xs => xs.length | .Boolean3 xs => xs.length
  | .Boolean4 xs => xs.length | .Vb xs => xs.length

/-- `ValueArray::from_standard_type` from `src/value/array.rs`: Rust
computes `len = input.len() / node_size` first — a division-by-zero
panic when `node_size == 0` — then rejects inputs whose length is not
`node_size * len` with `SizeMismatch`, then decodes `len` elements
sequentially from a cursor over the input. -/
def ValueArray.from_standard_type (t : StandardType) (input : List Nat) :
    PResult KErr (Option ValueArray) :=
  let ns := t.nodeSize
  if ns = 0 then .panic "attempt to divide by zero"
  else
    let len := input.length / ns
    -- prevent reading incomplete input data
    if ns * len ≠ input.length then .err (.sizeMismatch t ns input.length)
    else
      match t with
      | .NodeStart | .NodeEnd | .FileEnd | .Attribute
      | .Binary | .String | .Time => .ok none
      | .S8 => .ok (some (.S8 ((chunks ns input).map (decS 1))))
      | .U8 => .ok (some (.U8 ((chunks ns input).map beRead)))
      | .S16 => .ok (some (.S16 ((chunks ns input).map (decS 2))))
      | .U16 => .ok (some (.U16 ((chunks ns input).map beRead)))
      | .S32 => .ok (some (.S32 ((chunks ns input).map (decS 4))))
      | .U32 => .ok (some (.U32 ((chunks ns input).map beRead)))
      | .S64 => .ok (some (.S64 ((chunks ns input).map (decS 8))))
      | .U64 => .ok (some (.U64 ((chunks ns input).map beRead)))
      | .Ip4 => .ok (some (.Ip4 (chunks ns input)))
      | .Float => .ok (some (.Float ((chunks ns input).map beRead)))
      | .Double => .ok (some (.Double ((chunks ns input).map beRead)))
      | .Boolean =>
          (pmapM (fun c => parseBoolByte (c.headD 0)) (chunks ns input)).bind
            fun xs => .ok (some (.Boolean xs))
      | .S8_2 => .ok (some (.S8_2 ((chunks ns input).map (List.map (fun b => toSigned 1 b)))))
      | .S8_3 => .ok (some (.S8_3 ((chunks ns input).map (List.map (fun b => toSigned 1 b)))))
      | .S8_4 => .ok (some (.S8_4 ((chunks ns input).map (List.map (fun b => toSigned 1 b)))))
      | .Vs8 => .ok (some (.Vs8 ((chunks ns input).map (List.map (fun b => toSigned 1 b)))))
      | .U8_2 => .ok (some (.U8_2 (chunks ns input)))
      | .U8_3 => .ok (some (.U8_3 (chunks ns input)))
      | .U8_4 => .ok (some (.U8_4 (chunks ns input)))
      | .Vu8 => .ok (some (.Vu8 (chunks ns input)))
      | .Boolean2 =>
          (pmapM parseBools (chunks ns input)).bind fun xs => .ok (some (.Boolean2 xs))
      | .Boolean3 =>
          (pmapM parseBools (chunks ns input)).bind fun xs => .ok (some (.Boolean3 xs))
      | .Boolean4 =>
          (pmapM parseBools (chunks ns input)).bind fun xs => .ok (some (.Boolean4 xs))
      | .Vb =>
          (pmapM parseBools (chunks ns input)).bind fun xs => .ok (some (.Vb xs))
      | .S16_2 => .ok (some (.S16_2 ((chunks ns input).map (fun c => (chunks 2 c).map (decS 2)))))
      | .S16_3 => .ok (some (.S16_3 ((chunks ns input).map (fun c => (chunks 2 c).map (decS 2)))))
      | .S16_4 => .ok (some (.S16_4 ((chunks ns input).map (fun c => (chunks 2 c).map (decS 2)))))
      | .Vs16 => .ok (some (.Vs16 ((chunks ns input).map (fun c => (chunks 2 c).map (decS 2)))))
      | .S32_2 => .ok (some (.S32_2 ((chunks ns input).map (fun c => (chunks 4 c).map (decS 4)))))
      | .S32_3 => .ok (some (.S32_3 ((chunks ns input).map (fun c => (chunks 4 c).map (decS 4)))))
      | .S32_4 => .ok (some (.S32_4 ((chunks ns input).map (fun c => (chunks 4 c).map (decS 4)))))
      | .S64_2 => .ok (some (.S64_2 ((chunks ns input).map (fun c => (chunks 8 c).map (decS 8)))))
      | .S64_3 => .ok (some (.S64_3 ((chunks ns input).map (fun c => (chunks 8 c).map (decS 8)))))
      | .S64_4 => .ok (some (.S64_4 ((chunks ns input).map (fun c => (chunks 8 c).map (decS 8)))))
      | .U16_2 => .ok (some (.U16_2 ((chunks ns input).map (fun c => (chunks 2 c).map beRead))))
      | .U16_3 => .ok (some (.U16_3 ((chunks ns input).map (fun c => (chunks 2 c).map beRead))))
      | .U16_4 => .ok (some (.U16_4 ((chunks ns input).map (fun c => (chunks 2 c).map beRead))))
      | .Vu16 => .ok (some (.Vu16 ((chunks ns input).map (fun c => (chunks 2 c).map beRead))))
      | .U32_2 => .ok (some (.U32_2 ((chunks ns input).map (fun c => (chunks 4 c).map beRead))))
      | .U32_3 => .ok (some (.U32_3 ((chunks ns input).map (fun c => (chunks 4 c).map beRead))))
      | .U32_4 => .ok (some (.U32_4 ((chunks ns input).map (fun c => (chunks 4 c).map beRead))))
      | .U64_2 => .ok (some (.U64_2 ((chunks ns input).map (fun c => (chunks 8 c).map beRead))))
      | .U64_3 => .ok (some (.U64_3 ((chunks ns input).map (fun c => (chunks 8 c).map beRead))))
      | .U64_4 => .ok (some (.U64_4 ((chunks ns input).map (fun c => (chunks 8 c).map beRead))))
      | .Float2 => .ok (some (.Float2 ((chunks ns input).map (fun c => (chunks 4 c).map beRead))))
      | .Float3 => .ok (some (.Float3 ((chunks ns input).map (fun c => (chunks 4 c).map beRead))))
      | .Float4 => .ok (some (.Float4 ((chunks ns input).map (fun c => (chunks 4 c).map beRead))))
      | .Double2 => .ok (some (.Double2 ((chunks ns input).map (fun c => (chunks 8 c).map beRead))))
      | .Double3 => .ok (some (.Double3 ((chunks ns input).map (fun c => (chunks 8 c).map beRead))))
      | .Double4 => .ok (some (.Double4 ((chunks ns input).map (fun c => (chunks 8 c).map beRead))))

/-- Accumulate decimal digits; `none` at the first non-digit
(`core::num` integer parsing after the sign). -/
def parseDigitsAux (acc : Nat) : List Char → Option Nat
  | [] => some acc
  | c :: cs => if c.isDigit then parseDigitsAux (acc * 10 + (c.toNat - 48)) cs else none

/-- A nonempty all-digit run, as required by Rust integer `FromStr`. -/
def parseDigits : List Char → Option Nat
  | [] => none
  | l => parseDigitsAux 0 l

/-- Rust `str::parse` for an unsigned integer type with exclusive upper
bound `bound`: optional leading `+`, then decimal digits, overflow
rejected. -/
def parseUnsigned (bound : Nat) (s : Str) : Option Nat :=
  let l := match s.data with
    | '+' :: rest => rest
    | l => l
  (parseDigits l).bind fun n => if n < bound then some n else none

/-- Rust `str::parse` for a signed integer type whose value range is
`[-half, half)`: optional sign, decimal digits, overflow rejected. -/
def parseSigned (half : Nat) (s : Str) : Option Int :=
  match s.data with
  | '-' :: rest => (parseDigits rest).bind fun n =>
      if n ≤ half then some (-(n : Int)) else none
  | '+' :: rest => (parseDigits rest).bind fun n =>
      if n < half then some ((n : Int)) else none
  | l => (parseDigits l).bind fun n =>
      if n < half then some ((n : Int)) else none

/-- The value of one hexadecimal digit, either case. -/
def hexVal (c : Char) : Option Nat :=
  if c.isDigit then some (c.toNat - 48)
  else if 'a' ≤ c ∧ c ≤ 'f' then some (c.toNat - 87)
  else if 'A' ≤ c ∧ c ≤ 'F' then some (c.toNat - 55)
  else none

/-- `rustc_hex::FromHex`: pairs of hex digits, rejecting odd length and
non-hex characters. -/
def hexDecode : List Char → Option (List Nat)
  | [] => some []
  | [_] => none
  | a :: b :: rest =>
      (hexVal a).bind fun ha =>
      (hexVal b).bind fun hb =>
      (hexDecode rest).bind fun bs => some ((ha * 16 + hb) :: bs)

/-- The text parsers for `f32`/`f64`, kept abstract as parameters of the
embedding: they return the parsed IEEE-754 bit pattern, `none` on parse
failure.  No claim in this development depends on their behaviour, so
every theorem quantifies over them. -/
structure FloatParse where
  f32 : Str → Option Nat
  f64 : Str → Option Nat


/-- Rust `str::split(char)`: split at every occurrence of `sep`
(consecutive separators produce empty parts, and the empty string is a
single empty part). -/
def splitCharGo (sep : Char) : List Char → List Char → List Str
  | [], acc => [String.mk acc.reverse]
  | c :: cs, acc =>
      if c = sep then String.mk acc.reverse :: splitCharGo sep cs []
      else splitCharGo sep cs (c :: acc)

/-- Rust `str::split(char)` on a string. -/
def splitChar (sep : Char) (s : Str) : List Str :=
  splitCharGo sep s.data []

/-- The `parse_tuple` helper of `Value::from_string`
(`src/value.rs` lines 142-159): walk the space-separated parts with a
running index `i` into a `[T; count]` output; a part that fails to
parse is `StringParse`; a part at `i ≥ count` is written out of bounds
(a Rust panic, since the parse result is evaluated before the index);
at the end `i ≠ count` is `SizeMismatch(count, i)`. -/
def parseTupleGo (t : StandardType) (p : Str → Option α) (cnt : Nat) :
    List Str → Nat → PResult KErr (List α)
  | [], i => if i ≠ cnt then .err (.sizeMismatch t cnt i) else .ok []
  | part :: rest, i =>
      match p part with
      | none => .err (.stringParse t.name)
      | some v =>
          if i < cnt then
            (parseTupleGo t p cnt rest (i + 1)).bind fun vs => .ok (v :: vs)
          else .panic "index out of bounds"

/-- The inline loop of the boolean-vector arms of `Value::from_string`:
like `parseTupleGo` but matching each part against `"0"`/`"1"`, with
`InvalidBooleanInput(part.parse::<u8>()?)` for anything else. -/
def parseBoolTupleGo (t : StandardType) (cnt : Nat) :
    List Str → Nat → PResult KErr (List Bool)
  | [], i => if i ≠ cnt then .err (.sizeMismatch t cnt i) else .ok []
  | part :: rest, i =>
      let b : PResult KErr Bool :=
        if part = "0" then .ok false
        else if part = "1" then .ok true
        else match parseUnsigned 256 part with
          | some n => .err (.invalidBoolean n)
          | none => .err (.stringParse t.name)
      b.bind fun v =>
        if i < cnt then
          (parseBoolTupleGo t cnt rest (i + 1)).bind fun vs => .ok (v :: vs)
        else .panic "index out of bounds"

/-- The custom splitter inside `to_array` (`src/value.rs` lines
161-181): split the text at every `count`-th space; the other spaces
stay inside the part. -/
def splitGroupsGo (count : Nat) : List Char → Nat → List Char → List Str
  | [], _, acc => [String.mk acc.reverse]
  | c :: cs, i, acc =>
      if c = ' ' then
        let j := i + 1
        if j = count then String.mk acc.reverse :: splitGroupsGo count cs 0 []
        else splitGroupsGo count cs j (c :: acc)
      else splitGroupsGo count cs i (c :: acc)

/-- `to_array`'s view of its input: groups of `count` space-separated
items. -/
def splitGroups (count : Nat) (s : Str) : List Str :=
  splitGroupsGo count s.data 0 []

/-- The `is_array == false` body of `Value::from_string`
(`src/value.rs` lines 212-305). -/
def Value.from_string_single (fp : FloatParse) (t : StandardType)
    (input : Str) : PResult KErr Value :=
  let parseErr : PResult KErr Value := .err (.stringParse t.name)
  match t with
  | .S8 => match parseSigned 128 input with
      | some n => .ok (.S8 n) | none => parseErr
  | .U8 => match parseUnsigned 256 input with
      | some n => .ok (.U8 n) | none => parseErr
  | .S16 => match parseSigned 32768 input with
      | some n => .ok (.S16 n) | none => parseErr
  | .U16 => match parseUnsigned 65536 input with
      | some n => .ok (.U16 n) | none => parseErr
  | .S32 => match parseSigned (2 ^ 31) input with
      | some n => .ok (.S32 n) | none => parseErr
  | .U32 => match parseUnsigned (2 ^ 32) input with
      | some n => .ok (.U32 n) | none => parseErr
  | .S64 => match parseSigned (2 ^ 63) input with
      | some n => .ok (.S64 n) | none => parseErr
  | .U64 => match parseUnsigned (2 ^ 64) input with
      | some n => .ok (.U64 n) | none => parseErr
  | .Binary => match hexDecode input.data with
      | some data => .ok (.Binary data) | none => .err .hexError
  | .String => .ok (.String input)
  | .Attribute => .ok (.Attribute input)
  | .Ip4 =>
      -- IP addresses are split by a period; same indexed loop shape
      (parseTupleGo .Ip4 (parseUnsigned 256) 4 (splitChar '.' input) 0).bind
        fun xs => .ok (.Ip4 xs)
  | .Time => match parseUnsigned (2 ^ 32) input with
      | some n => .ok (.Time n) | none => parseErr
  | .Float => match fp.f32 input with
      | some bits => .ok (.Float bits) | none => parseErr
  | .Double => match fp.f64 input with
      | some bits => .ok (.Double bits) | none => parseErr
  | .Boolean =>
      if input = "0" then .ok (.Boolean false)
      else if input = "1" then .ok (.Boolean true)
      else match parseUnsigned 256 input with
        | some n => .err (.invalidBoolean n)
        | none => parseErr
  | .NodeEnd => .err (.invalidNodeType t)
  | .FileEnd => .err (.invalidNodeType t)
  | .NodeStart => .err (.invalidNodeType t)
  | .S8_2 => (parseTupleGo t (parseSigned 128) t.count (splitChar ' ' input) 0).bind
      fun xs => .ok (.S8_2 xs)
  | .S8_3 => (parseTupleGo t (parseSigned 128) t.count (splitChar ' ' input) 0).bind
      fun xs => .ok (.S8_3 xs)
  | .S8_4 => (parseTupleGo t (parseSigned 128) t.count (splitChar ' ' input) 0).bind
      fun xs => .ok (.S8_4 xs)
  | .Vs8 => (parseTupleGo t (parseSigned 128) t.count (splitChar ' ' input) 0).bind
      fun xs => .ok (.Vs8 xs)
  | .U8_2 => (parseTupleGo t (parseUnsigned 256) t.count (splitChar ' ' input) 0).bind
      fun xs => .ok (.U8_2 xs)
  | .U8_3 => (parseTupleGo t (parseUnsigned 256) t.count (splitChar ' ' input) 0).bind
      fun xs => .ok (.U8_3 xs)
  | .U8_4 => (parseTupleGo t (parseUnsigned 256) t.count (splitChar ' ' input) 0).bind
      fun xs => .ok (.U8_4 xs)
  | .Vu8 => (parseTupleGo t (parseUnsigned 256) t.count (splitChar ' ' input) 0).bind
      fun xs => .ok (.Vu8 xs)
  | .Boolean2 => (parseBoolTupleGo t t.count (splitChar ' ' input) 0).bind
      fun xs => .ok (.Boolean2 xs)
  | .Boolean3 => (parseBoolTupleGo t t.count (splitChar ' ' input) 0).bind
      fun xs => .ok (.Boolean3 xs)
  | .Boolean4 => (parseBoolTupleGo t t.count (splitChar ' ' input) 0).bind
      fun xs => .ok (.Boolean4 xs)
  | .Vb => (parseBoolTupleGo t t.count (splitChar ' ' input) 0).bind
      fun xs => .ok (.Vb xs)
  | .S16_2 => (parseTupleGo t (parseSigned 32768) t.count (splitChar ' ' input) 0).bind
      fun xs => .ok (.S16_2 xs)
  | .S16_3 => (parseTupleGo t (parseSigned 32768) t.count (splitChar ' ' input) 0).bind
      fun xs => .ok (.S16_3 xs)
  | .S16_4 => (parseTupleGo t (parseSigned 32768) t.count (splitChar ' ' input) 0).bind
      fun xs => .ok (.S16_4 xs)
  | .Vs16 => (parseTupleGo t (parseSigned 32768) t.count (splitChar ' ' input) 0).bind
      fun xs => .ok (.Vs16 xs)
  | .S32_2 => (parseTupleGo t (parseSigned (2 ^ 31)) t.count (splitChar ' ' input) 0).bind
      fun xs => .ok (.S32_2 xs)
  | .S32_3 => (parseTupleGo t (parseSigned (2 ^ 31)) t.count (splitChar ' ' input) 0).bind
      fun xs => .ok (.S32_3 xs)
  | .S32_4 => (parseTupleGo t (parseSigned (2 ^ 31)) t.count (splitChar ' ' input) 0).bind
      fun xs => .ok (.S32_4 xs)
  | .S64_2 => (parseTupleGo t (parseSigned (2 ^ 63)) t.count (splitChar ' ' input) 0).bind
      fun xs => .ok (.S64_2 xs)
  | .S64_3 => (parseTupleGo t (parseSigned (2 ^ 63)) t.count (splitChar ' ' input) 0).bind
      fun xs => .ok (.S64_3 xs)
  | .S64_4 => (parseTupleGo t (parseSigned (2 ^ 63)) t.count (splitChar ' ' input) 0).bind
      fun xs => .ok (.S64_4 xs)
  | .U16_2 => (parseTupleGo t (parseUnsigned 65536) t.count (splitChar ' ' input) 0).bind
      fun xs => .ok (.U16_2 xs)
  | .U16_3 => (parseTupleGo t (parseUnsigned 65536) t.count (splitChar ' ' input) 0).bind
      fun xs => .ok (.U16_3 xs)
  | .U16_4 => (parseTupleGo t (parseUnsigned 65536) t.count (splitChar ' ' input) 0).bind
      fun xs => .ok (.U16_4 xs)
  | .Vu16 => (parseTupleGo t (parseUnsigned 65536) t.count (splitChar ' ' input) 0).bind
      fun xs => .ok (.Vu16 xs)
  | .U32_2 => (parseTupleGo t (parseUnsigned (2 ^ 32)) t.count (splitChar ' ' input) 0).bind
      fun xs => .ok (.U32_2 xs)
  | .U32_3 => (parseTupleGo t (parseUnsigned (2 ^ 32)) t.count (splitChar ' ' input) 0).bind
      fun xs => .ok (.U32_3 xs)
  | .U32_4 => (parseTupleGo t (parseUnsigned (2 ^ 32)) t.count (splitChar ' ' input) 0).bind
      fun xs => .ok (.U32_4 xs)
  | .U64_2 => (parseTupleGo t (parseUnsigned (2 ^ 64)) t.count (splitChar ' ' input) 0).bind
      fun xs => .ok (.U64_2 xs)
  | .U64_3 => (parseTupleGo t (parseUnsigned (2 ^ 64)) t.count (splitChar ' ' input) 0).bind
      fun xs => .ok (.U64_3 xs)
  | .U64_4 => (parseTupleGo t (parseUnsigned (2 ^ 64)) t.count (splitChar ' ' input) 0).bind
      fun xs => .ok (.U64_4 xs)
  | .Float2 => (parseTupleGo t fp.f32 t.count (splitChar ' ' input) 0).bind
      fun xs => .ok (.Float2 xs)
  | .Float3 => (parseTupleGo t fp.f32 t.count (splitChar ' ' input) 0).bind
      fun xs => .ok (.Float3 xs)
  | .Float4 => (parseTupleGo t fp.f32 t.count (splitChar ' ' input) 0).bind
      fun xs => .ok (.Float4 xs)
  | .Double2 => (parseTupleGo t fp.f64 t.count (splitChar ' ' input) 0).bind
      fun xs => .ok (.Double2 xs)
  | .Double3 => (parseTupleGo t fp.f64 t.count (splitChar ' ' input) 0).bind
      fun xs => .ok (.Double3 xs)
  | .Double4 => (parseTupleGo t fp.f64 t.count (splitChar ' ' input) 0).bind
      fun xs => .ok (.Double4 xs)

/-- `to_array` from `Value::from_string`: split the text into groups of
`count` items and parse each group at `is_array == false`. -/
def Value.to_array (fp : FloatParse) (t : StandardType) (count : Nat)
    (input : Str) : PResult KErr Value :=
  (pmapM (fun part => Value.from_string_single fp t part) (splitGroups count input)).bind
    fun values => .ok (.Array t values)

/-- `Value::from_string` from `src/value.rs`: the `is_array` branch
dispatches on `node_type.count` and `arr_count`; otherwise the scalar
body runs. -/
def Value.from_string (fp : FloatParse) (t : StandardType) (input : Str)
    (is_array : Bool) (arr_count : Nat) : PResult KErr Value :=
  if is_array then
    if t.count = 1 then
      match arr_count with
      | 0 => .err .invalidState
      | 1 => Value.from_string_single fp t input
      | _ => Value.to_array fp t t.count input
    else if t.count > 1 then Value.to_array fp t t.count input
    else .err .invalidState
  else Value.from_string_single fp t input

/-- Modelled from the spec: the five-entry text-encoding table of the
`encoding_type` module (spec sections 3 and 6), not under `src/`. -/
inductive EncodingType where
  | SHIFT_JIS | ASCII | ISO_8859_1 | EUC_JP | UTF_8
  deriving DecidableEq, Repr

/-- Modelled from the spec: the `Key` of a `NodeDefinition`
(`node/definition.rs` is not under `src/`); the text reader only
builds uncompressed keys. -/
inductive Key where
  | uncompressed (encoding : EncodingType) (data : List Nat)
  deriving DecidableEq, Repr

/-- Modelled from the spec: `NodeData` (`node/definition.rs`), the
optional key/value payload of a definition. -/
inductive NodeData where
  | dataNone
  | dataSome (key : Key) (value_data : List Nat)
  deriving DecidableEq, Repr

/-- Modelled from the spec: `NodeDefinition` (spec section 3:
`{ encoding, tag, is_array, data }`). -/
structure NodeDefinition where
  encoding : EncodingType
  node_type : StandardType
  is_array : Bool
  data : NodeData
  deriving DecidableEq, Repr

/-- `NodeDefinition::with_data`. -/
def NodeDefinition.with_data (encoding : EncodingType)
    (node_type : StandardType) (is_array : Bool) (data : NodeData) :
    NodeDefinition :=
  ⟨encoding, node_type, is_array, data⟩

/-- The `value_data` carried by a definition ([] when no data). -/
def NodeDefinition.value_data (d : NodeDefinition) : List Nat :=
  match d.data with
  | .dataNone => []
  | .dataSome _ v => v

/-- Modelled from the spec: `NodeCollection` (spec section 3: a base
definition, a deque of attribute definitions and a deque of child
collections, both in document order). -/
inductive NodeCollection where
  | mk (base : NodeDefinition) (attributes : List NodeDefinition)
       (children : List NodeCollection)

/-- The base definition of a collection. -/
def NodeCollection.base : NodeCollection → NodeDefinition
  | .mk b _ _ => b

/-- The attribute definitions of a collection, in document order. -/
def NodeCollection.attributes : NodeCollection → List NodeDefinition
  | .mk _ a _ => a

/-- `NodeCollection::with_attributes`. -/
def NodeCollection.with_attributes (base : NodeDefinition)
    (attributes : List NodeDefinition) : NodeCollection :=
  .mk base attributes []

/-- A `quick_xml` `Event::Start`/`Event::Empty` as the text reader sees
it: element name bytes and attribute key/value byte pairs (values
already unescaped, as produced by `attr.unescaped_value()`). -/
structure StartEvent where
  name : List Nat
  attrs : List (List Nat × List Nat)

/-- The bytes of `"__type"`, the reserved type attribute. -/
def typeKeyBytes : List Nat := [95, 95, 116, 121, 112, 101]

/-- The bytes of `"__count"`, the reserved array-length attribute. -/
def countKeyBytes : List Nat := [95, 95, 99, 111, 117, 110, 116]

/-- The bytes of `"__size"`, the reserved binary-size attribute. -/
def sizeKeyBytes : List Nat := [95, 95, 115, 105, 122, 101]

/-- `str::from_utf8`, restricted to the ASCII plane: byte strings with
a byte ≥ 0x80 are mapped to a decode error.  (Non-ASCII valid UTF-8
only ever flows into `u32`/`usize` parsing or the type registry, which
reject every non-ASCII string anyway, so on `Ok` results this model
agrees with the source.) -/
def asciiDecode (bs : List Nat) : Option Str :=
  if bs.all (fun b => b < 128) then
    some (String.mk (bs.map (fun b => Char.ofNat b)))
  else none

/-- `TextXmlReader::parse_attribute` (`src/text_reader.rs` lines
44-66): an `Attribute` definition, never an array, whose value is the
attribute text plus kbin's trailing NUL byte.  (The Rust signature
returns `Result` but the body cannot fail.) -/
def parse_attribute (enc : EncodingType) (key value : List Nat) :
    NodeDefinition :=
  NodeDefinition.with_data enc .Attribute false
    (.dataSome (.uncompressed enc key) (value ++ [0]))

/-- The attribute loop of `TextXmlReader::parse_attributes`
(`src/text_reader.rs` lines 68-129): reserved keys update the type,
count and size; every other attribute is collected in document order. -/
def parse_attributes_go (enc : EncodingType) :
    List (List Nat × List Nat) → Option StandardType → Nat → Option Nat →
    List NodeDefinition →
    PResult KErr (StandardType × Nat × Option Nat × List NodeDefinition)
  | [], nt, count, size, acc =>
      -- default to `NodeStart`; `Event::Text` may later upgrade to `String`
      .ok (nt.getD .NodeStart, count, size, acc.reverse)
  | (k, v) :: rest, nt, count, size, acc =>
      if k = typeKeyBytes then
        match asciiDecode v with
        | none => .err .utf8Error
        | some sv =>
            match StandardType.from_name sv with
            | none => .err .invalidKbinType
            | some t => parse_attributes_go enc rest (some t) count size acc
      else if k = countKeyBytes then
        match asciiDecode v with
        | none => .err .utf8Error
        | some sv =>
            match parseUnsigned (2 ^ 32) sv with
            | none => .err (.stringParseInt "array count")
            | some n => parse_attributes_go enc rest nt n size acc
      else if k = sizeKeyBytes then
        match asciiDecode v with
        | none => .err .utf8Error
        | some sv =>
            match parseUnsigned (2 ^ 64) sv with
            | none => .err (.stringParseInt "binary size")
            | some n => parse_attributes_go enc rest nt count (some n) acc
      else
        parse_attributes_go enc rest nt count size (parse_attribute enc k v :: acc)

/-- `TextXmlReader::parse_attributes`. -/
def parse_attributes (enc : EncodingType)
    (attrs : List (List Nat × List Nat)) :
    PResult KErr (StandardType × Nat × Option Nat × List NodeDefinition) :=
  parse_attributes_go enc attrs none 0 none []

/-- `TextXmlReader::handle_start` (`src/text_reader.rs` lines
131-152): build the base definition (array flag from `count > 0`, the
`String` stub value `[0]`) and wrap it with the collected attributes. -/
def handle_start (enc : EncodingType) (e : StartEvent) :
    PResult KErr (NodeCollection × Nat × Option Nat) :=
  (parse_attributes enc e.attrs).bind fun r =>
    match r with
    | (node_type, count, size, attributes) =>
      let is_array := decide (count > 0)
      -- stub the value for now, handled by `Event::Text`
      let value_data : List Nat :=
        match node_type with
        | .String => [0]
        | _ => []
      let data := NodeData.dataSome (.uncompressed enc e.name) value_data
      let base := NodeDefinition.with_data enc node_type is_array data
      .ok (NodeCollection.with_attributes base attributes, count, size)

/-- `TextXmlReader::handle_text` (`src/text_reader.rs` lines 154-204):
`String`/`NodeStart` text is stored NUL-terminated; any other type is
parsed with `Value::from_string` (checking `__size` for `Binary`) and
re-serialized; a `NodeStart` definition is upgraded to `String`. -/
def handle_text (fp : FloatParse) (text : List Nat) (defn : NodeDefinition)
    (count : Nat) (size : Option Nat) : PResult KErr NodeDefinition :=
  let dataRes : PResult KErr (List Nat) :=
    match defn.node_type with
    | .String | .NodeStart => .ok (text ++ [0])
    | _ =>
        match asciiDecode text with
        | none => .err .utf8Error
        | some sv =>
            (Value.from_string fp defn.node_type sv defn.is_array count).bind
              fun v =>
                let sizeCheck : PResult KErr Unit :=
                  match v, size with
                  | .Binary d, some sz =>
                      if d.length ≠ sz then .err .invalidState else .ok ()
                  | _, _ => .ok ()
                sizeCheck.bind fun _ => v.to_bytes
  dataRes.bind fun bytes =>
    let nt := if defn.node_type = .NodeStart then StandardType.String
              else defn.node_type
    match defn.data with
    | .dataSome key _ =>
        .ok ⟨defn.encoding, nt, defn.is_array, .dataSome key bytes⟩
    | .dataNone => .err .invalidState

/-- The node key (`Node::key`). -/
def KNodeP.key : KNodeP V → Str
  | .mk k _ _ _ => k

/-- The node attribute map (`Node::attributes`), an association list in
insertion order modelling `IndexMap<String, String>`. -/
def KNodeP.attributes : KNodeP V → Option (List (Str × Str))
  | .mk _ a _ _ => a

/-- `IndexMap::insert`: an existing key keeps its position and only its
value changes (the old value is returned); a new key is appended. -/
def imInsert (m : List (Str × Str)) (k v : Str) :
    List (Str × Str) × Option Str :=
  match m.find? (fun p => p.1 = k) with
  | some p =>
      (m.map (fun q => if q.1 = k then (q.1, v) else q), some p.2)
  | none => (m ++ [(k, v)], none)

/-- `Node::set_attr` from `src/node/mod.rs`: materialize the map if
absent, then `IndexMap::insert`. -/
def Node.set_attr (n : Node) (k v : Str) : Node × Option Str :=
  match n with
  | .mk key attrs children value =>
      let m := attrs.getD []
      let r := imInsert m k v
      (.mk key (some r.1) children value, r.2)

/-- `convert_attributes` from `src/node/mod.rs`: insert the pairs one
by one, preserving first-occurrence order. -/
def convert_attributes (attrs : List (Str × Str)) : List (Str × Str) :=
  attrs.foldl (fun m kv => (imInsert m kv.1 kv.2).1) []

/-- `Node::with_attrs`. -/
def Node.with_attrs (key : Str) (attrs : List (Str × Str)) : Node :=
  .mk key (some (convert_attributes attrs)) none none

/-- A float parser that rejects every string; used to instantiate the
abstract `FloatParse` parameter in concrete evaluations. -/
def fpNone : FloatParse := ⟨fun _ => none, fun _ => none⟩

/-- The key bytes stored in a definition ([] when it has no data). -/
def NodeDefinition.keyBytes (d : NodeDefinition) : List Nat :=
  match d.data with
  | .dataSome (.uncompressed _ k) _ => k
  | .dataNone => []

theorem length_beBytes (w x : Nat) : (beBytes w x).length = w := by
  induction w generalizing x with
  | zero => rfl
  | succ w ih => simp [beBytes, ih]

theorem beRead_append_single (l : List Nat) (b : Nat) :
    beRead (l ++ [b]) = beRead l * 256 + b := by
  simp [beRead, List.foldl_append]

theorem beRead_beBytes (w x : Nat) (h : x < 256 ^ w) :
    beRead (beBytes w x) = x := by
  induction w generalizing x with
  | zero =>
      simp [beBytes, beRead]
      omega
  | succ w ih =>
      have hx : x / 256 < 256 ^ w := by
        rw [Nat.div_lt_iff_lt_mul (by norm_num)]
        calc x < 256 ^ (w + 1) := h
        _ = 256 ^ w * 256 := by rw [pow_succ]
      simp only [beBytes, beRead_append_single, ih _ hx]
      omega

theorem pow256 (w : Nat) : (256 : Nat) ^ w = 2 ^ (8 * w) := by
  rw [show (256 : Nat) = 2 ^ 8 by norm_num, ← pow_mul]

theorem fromSigned_lt (w : Nat) (n : Int) : fromSigned w n < 2 ^ (8 * w) := by
  unfold fromSigned
  have hpos : (0 : Int) < 2 ^ (8 * w) := by positivity
  have h1 := Int.emod_nonneg n (ne_of_gt hpos)
  have h2 := Int.emod_lt_of_pos n hpos
  have hc : ((2 ^ (8 * w) : Nat) : Int) = 2 ^ (8 * w) := by push_cast; ring
  omega

theorem toSigned_fromSigned (w : Nat) (hw : w = 1 ∨ w = 2 ∨ w = 4 ∨ w = 8)
    (n : Int) (h1 : -(2 ^ (8 * w - 1)) ≤ n) (h2 : n < 2 ^ (8 * w - 1)) :
    toSigned w (fromSigned w n) = n := by
  rcases hw with rfl | rfl | rfl | rfl <;>
  · unfold toSigned fromSigned
    norm_num at h1 h2 ⊢
    split <;> omega

theorem length_encS (w : Nat) (n : Int) : (encS w n).length = w := by
  unfold encS
  exact length_beBytes w _

theorem decS_encS (w : Nat) (hw : w = 1 ∨ w = 2 ∨ w = 4 ∨ w = 8) (n : Int)
    (h : sIn w n = true) : decS w (encS w n) = n := by
  have hb : fromSigned w n < 256 ^ w := by
    rw [pow256]
    exact fromSigned_lt w n
  unfold decS encS
  rw [beRead_beBytes _ _ hb]
  simp only [sIn, Bool.and_eq_true, decide_eq_true_eq] at h
  exact toSigned_fromSigned w hw n h.1 h.2

theorem beRead_beBytes_u (w x : Nat) (h : uIn w x = true) :
    beRead (beBytes w x) = x := by
  simp only [uIn, decide_eq_true_eq] at h
  exact beRead_beBytes w x (by rw [pow256]; exact h)

theorem chunks_nil (k : Nat) : chunks k ([] : List α) = [] := by
  simp [chunks]

theorem chunks_cons_full (k : Nat) (hk : 0 < k) (c rest : List α)
    (hc : c.length = k) : chunks k (c ++ rest) = c :: chunks k rest := by
  cases c with
  | nil => simp at hc; omega
  | cons a as =>
      rw [List.cons_append, chunks]
      have h1 : (a :: (as ++ rest)).take k = a :: as := by
        rw [← List.cons_append]
        exact List.take_left' hc
      have h2 : (as ++ rest).drop (k - 1) = rest := by
        apply List.drop_left'
        simp at hc
        omega
      rw [h1, h2]

theorem chunks_flatMap {β : Type} (k : Nat) (hk : 0 < k) (g : β → List α)
    (xs : List β) (h : ∀ x ∈ xs, (g x).length = k) :
    chunks k (xs.flatMap g) = xs.map g := by
  induction xs with
  | nil => simp [chunks_nil]
  | cons x rest ih =>
      rw [List.flatMap_cons, chunks_cons_full k hk _ _ (h x (by simp)),
        List.map_cons]
      congr 1
      exact ih (fun y hy => h y (by simp [hy]))

theorem length_chunks_dvd (k : Nat) (hk : 0 < k) (l : List α)
    (h : k ∣ l.length) : (chunks k l).length = l.length / k := by
  obtain ⟨m, hm⟩ := h
  induction m generalizing l with
  | zero =>
      have hl : l = [] := List.length_eq_zero.mp (by simpa using hm)
      subst hl
      simp [chunks_nil]
  | succ m ih =>
      have hx : k * (m + 1) = k * m + k := by ring
      have hlen : k ≤ l.length := by omega
      have htake : (l.take k).length = k := by
        rw [List.length_take]
        omega
      have hdrop : (l.drop k).length = k * m := by
        rw [List.length_drop]
        omega
      have hrec : (chunks k l).length = (chunks k (l.drop k)).length + 1 := by
        conv_lhs => rw [← List.take_append_drop k l]
        rw [chunks_cons_full k hk _ _ htake]
        simp
      rw [hrec, ih (l.drop k) hdrop, hdrop, hm,
        Nat.mul_div_cancel_left _ hk, Nat.mul_div_cancel_left _ hk]

theorem length_flatMap_const {β : Type} (g : β → List α) (w : Nat)
    (xs : List β) (h : ∀ x ∈ xs, (g x).length = w) :
    (xs.flatMap g).length = xs.length * w := by
  induction xs with
  | nil => simp
  | cons x rest ih =>
      rw [List.flatMap_cons, List.length_append, h x (by simp),
        ih (fun y hy => h y (by simp [hy])), List.length_cons]
      ring

theorem pmapM_ok_length {ε α β : Type} (f : α → PResult ε β) (l : List α)
    (ys : List β) (h : pmapM f l = .ok ys) : ys.length = l.length := by
  induction l generalizing ys with
  | nil =>
      simp [pmapM] at h
      simp [← h]
  | cons a rest ih =>
      simp only [pmapM] at h
      cases hfa : f a with
      | panic m => rw [hfa] at h; simp [PResult.bind] at h
      | err e => rw [hfa] at h; simp [PResult.bind] at h
      | ok b =>
          rw [hfa] at h
          simp only [PResult.bind] at h
          cases hrest : pmapM f rest with
          | panic m => rw [hrest] at h; simp at h
          | err e => rw [hrest] at h; simp at h
          | ok bs =>
              rw [hrest] at h
              simp only at h
              cases h
              simp [ih bs hrest]

theorem pmapM_ok_mem {ε α β : Type} (f : α → PResult ε β) (l : List α)
    (ys : List β) (h : pmapM f l = .ok ys) :
    ∀ a ∈ l, ∃ b, f a = .ok b := by
  induction l generalizing ys with
  | nil => intro a ha; simp at ha
  | cons a rest ih =>
      intro x hx
      simp only [pmapM] at h
      cases hfa : f a with
      | panic m => rw [hfa] at h; simp [PResult.bind] at h
      | err e => rw [hfa] at h; simp [PResult.bind] at h
      | ok b =>
          rw [hfa] at h
          simp only [PResult.bind] at h
          cases hrest : pmapM f rest with
          | panic m => rw [hrest] at h; simp at h
          | err e => rw [hrest] at h; simp at h
          | ok bs =>
              rcases List.mem_cons.mp hx with rfl | hx'
              · exact ⟨b, hfa⟩
              · exact ih bs hrest x hx'

theorem pmapM_ne_panic {ε α β : Type} (f : α → PResult ε β)
    (hf : ∀ a m, f a ≠ .panic m) (l : List α) (m : String) :
    pmapM f l ≠ .panic m := by
  induction l generalizing m with
  | nil => simp [pmapM]
  | cons a rest ih =>
      simp only [pmapM]
      cases hfa : f a with
      | panic m2 => exact absurd hfa (hf a m2)
      | err e => simp [PResult.bind]
      | ok b =>
          simp only [PResult.bind]
          cases hrest : pmapM f rest with
          | panic m2 => exact absurd hrest (ih m2)
          | err e => simp
          | ok bs => simp

theorem parseBools_encB (xs : List Bool) : parseBools (xs.map encB) = .ok xs := by
  induction xs with
  | nil => rfl
  | cons b rest ih =>
      cases b <;> simp [parseBools, encB, ih, PResult.bind]

theorem parseBools_ne_panic (l : List Nat) (m : String) :
    parseBools l ≠ .panic m := by
  induction l generalizing m with
  | nil => simp [parseBools]
  | cons b rest ih =>
      simp only [parseBools]
      split
      · cases hrest : parseBools rest with
        | panic m2 => exact absurd hrest (ih m2)
        | err e => simp [PResult.bind]
        | ok bs => simp [PResult.bind]
      · split
        · cases hrest : parseBools rest with
          | panic m2 => exact absurd hrest (ih m2)
          | err e => simp [PResult.bind]
          | ok bs => simp [PResult.bind]
        · simp

theorem chunks_map_decS (w : Nat) (hw : w = 1 ∨ w = 2 ∨ w = 4 ∨ w = 8)
    (xs : List Int) (h : xs.all (sIn w) = true) :
    (chunks w (xs.flatMap (encS w))).map (decS w) = xs := by
  have hw0 : 0 < w := by rcases hw with rfl | rfl | rfl | rfl <;> norm_num
  rw [chunks_flatMap w hw0 (encS w) xs (fun x _ => length_encS w x),
    List.map_map]
  have hid : ∀ x ∈ xs, (decS w ∘ encS w) x = x := by
    intro x hx
    simp only [Function.comp_apply]
    refine decS_encS w hw x ?h
    simp only [List.all_eq_true] at h
    exact h x hx
  rw [List.map_congr_left hid]
  exact List.map_id' xs

theorem chunks_map_u (w : Nat) (hw0 : 0 < w) (xs : List Nat)
    (h : xs.all (uIn w) = true) :
    (chunks w (xs.flatMap (beBytes w))).map beRead = xs := by
  rw [chunks_flatMap w hw0 (beBytes w) xs (fun x _ => length_beBytes w x),
    List.map_map]
  have hid : ∀ x ∈ xs, (beRead ∘ beBytes w) x = x := by
    intro x hx
    simp only [Function.comp_apply]
    refine beRead_beBytes_u w x ?h
    simp only [List.all_eq_true] at h
    exact h x hx
  rw [List.map_congr_left hid]
  exact List.map_id' xs

theorem flatMap_encS1_map (xs : List Int) (h : xs.all (sIn 1) = true) :
    (xs.flatMap (encS 1)).map (fun b => toSigned 1 b) = xs := by
  induction xs with
  | nil => simp
  | cons x rest ih =>
      simp only [List.all_cons, Bool.and_eq_true] at h
      rw [List.flatMap_cons, List.map_append, ih h.2]
      have h256 : fromSigned 1 x < 256 := by
        have := fromSigned_lt 1 x
        norm_num at this
        exact this
      have harm : (encS 1 x).map (fun b => toSigned 1 b) = [x] := by
        simp only [encS, beBytes, Nat.zero_div, List.nil_append,
          List.map_cons, List.map_nil, Nat.mod_eq_of_lt h256]
        simp only [sIn, Bool.and_eq_true, decide_eq_true_eq] at h
        rw [toSigned_fromSigned 1 (Or.inl rfl) x h.1.1 h.1.2]
      rw [harm]
      rfl

theorem flatMap_beBytes1 (xs : List Nat) (h : xs.all (uIn 1) = true) :
    xs.flatMap (beBytes 1) = xs := by
  induction xs with
  | nil => simp
  | cons x rest ih =>
      simp only [List.all_cons, Bool.and_eq_true] at h
      rw [List.flatMap_cons, ih h.2]
      have h256 : x < 256 := by
        have := h.1
        simp only [uIn, decide_eq_true_eq] at this
        norm_num at this
        exact this
      simp [beBytes, Nat.mod_eq_of_lt h256]

/-- C1: for every fixed-size primitive type and every in-range value of
that type (exactly the values `Value::from_standard_type` can produce),
serializing with `Value::to_bytes` and parsing the bytes back with
`Value::from_standard_type(t, false, bytes)` returns `Ok(Some(v))`:
the byte representation round-trips bit-exactly. -/
theorem C1_fixed_size_roundtrip (v : Value) (h1 : v.isFixedSize = true)
    (h2 : v.inRange = true) :
    PResult.bind v.to_bytes
      (fun bs => Value.from_standard_type v.standard_type false bs) =
      .ok (some v) := by
  cases v with
  | S8 n =>
      simp only [Value.inRange] at h2
      simp [Value.to_bytes, PResult.bind, Value.standard_type,
        Value.from_standard_type, Value.from_standard_type_single,
        StandardType.nodeSize, StandardType.size, StandardType.count,
        length_encS, decS_encS 1 (by norm_num) n h2]
  | S16 n =>
      simp only [Value.inRange] at h2
      simp [Value.to_bytes, PResult.bind, Value.standard_type,
        Value.from_standard_type, Value.from_standard_type_single,
        StandardType.nodeSize, StandardType.size, StandardType.count,
        length_encS, decS_encS 2 (by norm_num) n h2]
  | S32 n =>
      simp only [Value.inRange] at h2
      simp [Value.to_bytes, PResult.bind, Value.standard_type,
        Value.from_standard_type, Value.from_standard_type_single,
        StandardType.nodeSize, StandardType.size, StandardType.count,
        length_encS, decS_encS 4 (by norm_num) n h2]
  | S64 n =>
      simp only [Value.inRange] at h2
      simp [Value.to_bytes, PResult.bind, Value.standard_type,
        Value.from_standard_type, Value.from_standard_type_single,
        StandardType.nodeSize, StandardType.size, StandardType.count,
        length_encS, decS_encS 8 (by norm_num) n h2]
  | U8 n =>
      simp only [Value.inRange] at h2
      simp [Value.to_bytes, PResult.bind, Value.standard_type,
        Value.from_standard_type, Value.from_standard_type_single,
        StandardType.nodeSize, StandardType.size, StandardType.count,
        length_beBytes, beRead_beBytes_u 1 n h2]
  | U16 n =>
      simp only [Value.inRange] at h2
      simp [Value.to_bytes, PResult.bind, Value.standard_type,
        Value.from_standard_type, Value.from_standard_type_single,
        StandardType.nodeSize, StandardType.size, StandardType.count,
        length_beBytes, beRead_beBytes_u 2 n h2]
  | U32 n =>
      simp only [Value.inRange] at h2
      simp [Value.to_bytes, PResult.bind, Value.standard_type,
        Value.from_standard_type, Value.from_standard_type_single,
        StandardType.nodeSize, StandardType.size, StandardType.count,
        length_beBytes, beRead_beBytes_u 4 n h2]
  | U64 n =>
      simp only [Value.inRange] at h2
      simp [Value.to_bytes, PResult.bind, Value.standard_type,
        Value.from_standard_type, Value.from_standard_type_single,
        StandardType.nodeSize, StandardType.size, StandardType.count,
        length_beBytes, beRead_beBytes_u 8 n h2]
  | Time n =>
      simp only [Value.inRange] at h2
      simp [Value.to_bytes, PResult.bind, Value.standard_type,
        Value.from_standard_type, Value.from_standard_type_single,
        StandardType.nodeSize, StandardType.size, StandardType.count,
        length_beBytes, beRead_beBytes_u 4 n h2]
  | Float n =>
      simp only [Value.inRange] at h2
      simp [Value.to_bytes, PResult.bind, Value.standard_type,
        Value.from_standard_type, Value.from_standard_type_single,
        StandardType.nodeSize, StandardType.size, StandardType.count,
        length_beBytes, beRead_beBytes_u 4 n h2]
  | Double n =>
      simp only [Value.inRange] at h2
      simp [Value.to_bytes, PResult.bind, Value.standard_type,
        Value.from_standard_type, Value.from_standard_type_single,
        StandardType.nodeSize, StandardType.size, StandardType.count,
        length_beBytes, beRead_beBytes_u 8 n h2]
  | Ip4 xs =>
      simp only [Value.inRange, Bool.and_eq_true, decide_eq_true_eq] at h2
      simp [Value.to_bytes, PResult.bind, Value.standard_type,
        Value.from_standard_type, Value.from_standard_type_single,
        StandardType.nodeSize, StandardType.size, StandardType.count, h2.1]
  | Boolean b =>
      cases b <;> simp [Value.to_bytes, PResult.bind, Value.standard_type,
        Value.from_standard_type, Value.from_standard_type_single,
        StandardType.nodeSize, StandardType.size, StandardType.count, encB]
  | S8_2 xs =>
      simp only [Value.inRange, Bool.and_eq_true, decide_eq_true_eq] at h2
      have hlen : (xs.flatMap (encS 1)).length = 2 := by
        rw [length_flatMap_const (encS 1) 1 xs (fun x _ => length_encS 1 x)]
        omega
      simp [Value.to_bytes, PResult.bind, Value.standard_type,
        Value.from_standard_type, Value.from_standard_type_single,
        StandardType.nodeSize, StandardType.size, StandardType.count,
        hlen, flatMap_encS1_map xs h2.2]
  | S8_3 xs =>
      simp only [Value.inRange, Bool.and_eq_true, decide_eq_true_eq] at h2
      have hlen : (xs.flatMap (encS 1)).length = 3 := by
        rw [length_flatMap_const (encS 1) 1 xs (fun x _ => length_encS 1 x)]
        omega
      simp [Value.to_bytes, PResult.bind, Value.standard_type,
        Value.from_standard_type, Value.from_standard_type_single,
        StandardType.nodeSize, StandardType.size, StandardType.count,
        hlen, flatMap_encS1_map xs h2.2]
  | S8_4 xs =>
      simp only [Value.inRange, Bool.and_eq_true, decide_eq_true_eq] at h2
      have hlen : (xs.flatMap (encS 1)).length = 4 := by
        rw [length_flatMap_const (encS 1) 1 xs (fun x _ => length_encS 1 x)]
        omega
      simp [Value.to_bytes, PResult.bind, Value.standard_type,
        Value.from_standard_type, Value.from_standard_type_single,
        StandardType.nodeSize, StandardType.size, StandardType.count,
        hlen, flatMap_encS1_map xs h2.2]
  | Vs8 xs =>
      simp only [Value.inRange, Bool.and_eq_true, decide_eq_true_eq] at h2
      have hlen : (xs.flatMap (encS 1)).length = 16 := by
        rw [length_flatMap_const (encS 1) 1 xs (fun x _ => length_encS 1 x)]
        omega
      simp [Value.to_bytes, PResult.bind, Value.standard_type,
        Value.from_standard_type, Value.from_standard_type_single,
        StandardType.nodeSize, StandardType.size, StandardType.count,
        hlen, flatMap_encS1_map xs h2.2]
  | U8_2 xs =>
      simp only [Value.inRange, Bool.and_eq_true, decide_eq_true_eq] at h2
      rw [show Value.to_bytes (.U8_2 xs) = .ok (xs.flatMap (beBytes 1)) from rfl,
        flatMap_beBytes1 xs h2.2]
      simp [Value.to_bytes, PResult.bind, Value.standard_type,
        Value.from_standard_type, Value.from_standard_type_single,
        StandardType.nodeSize, StandardType.size, StandardType.count, h2.1]
  | U8_3 xs =>
      simp only [Value.inRange, Bool.and_eq_true, decide_eq_true_eq] at h2
      rw [show Value.to_bytes (.U8_3 xs) = .ok (xs.flatMap (beBytes 1)) from rfl,
        flatMap_beBytes1 xs h2.2]
      simp [Value.to_bytes, PResult.bind, Value.standard_type,
        Value.from_standard_type, Value.from_standard_type_single,
        StandardType.nodeSize, StandardType.size, StandardType.count, h2.1]
  | U8_4 xs =>
      simp only [Value.inRange, Bool.and_eq_true, decide_eq_true_eq] at h2
      rw [show Value.to_bytes (.U8_4 xs) = .ok (xs.flatMap (beBytes 1)) from rfl,
        flatMap_beBytes1 xs h2.2]
      simp [Value.to_bytes, PResult.bind, Value.standard_type,
        Value.from_standard_type, Value.from_standard_type_single,
        StandardType.nodeSize, StandardType.size, StandardType.count, h2.1]
  | Vu8 xs =>
      simp only [Value.inRange, Bool.and_eq_true, decide_eq_true_eq] at h2
      rw [show Value.to_bytes (.Vu8 xs) = .ok (xs.flatMap (beBytes 1)) from rfl,
        flatMap_beBytes1 xs h2.2]
      simp [Value.to_bytes, PResult.bind, Value.standard_type,
        Value.from_standard_type, Value.from_standard_type_single,
        StandardType.nodeSize, StandardType.size, StandardType.count, h2.1]
  | Boolean2 xs =>
      simp only [Value.inRange, decide_eq_true_eq] at h2
      simp [Value.to_bytes, PResult.bind, Value.standard_type,
        Value.from_standard_type, Value.from_standard_type_single,
        StandardType.nodeSize, StandardType.size, StandardType.count,
        List.length_map, h2, parseBools_encB]
  | Boolean3 xs =>
      simp only [Value.inRange, decide_eq_true_eq] at h2
      simp [Value.to_bytes, PResult.bind, Value.standard_type,
        Value.from_standard_type, Value.from_standard_type_single,
        StandardType.nodeSize, StandardType.size, StandardType.count,
        List.length_map, h2, parseBools_encB]
  | Boolean4 xs =>
      simp only [Value.inRange, decide_eq_true_eq] at h2
      simp [Value.to_bytes, PResult.bind, Value.standard_type,
        Value.from_standard_type, Value.from_standard_type_single,
        StandardType.nodeSize, StandardType.size, StandardType.count,
        List.length_map, h2, parseBools_encB]
  | Vb xs =>
      simp only [Value.inRange, decide_eq_true_eq] at h2
      simp [Value.to_bytes, PResult.bind, Value.standard_type,
        Value.from_standard_type, Value.from_standard_type_single,
        StandardType.nodeSize, StandardType.size, StandardType.count,
        List.length_map, h2, parseBools_encB]
  | S16_2 xs =>
      simp only [Value.inRange, Bool.and_eq_true, decide_eq_true_eq] at h2
      have hlen : (xs.flatMap (encS 2)).length = 4 := by
        rw [length_flatMap_const (encS 2) 2 xs (fun x _ => length_encS 2 x)]
        omega
      simp [Value.to_bytes, PResult.bind, Value.standard_type,
        Value.from_standard_type, Value.from_standard_type_single,
        StandardType.nodeSize, StandardType.size, StandardType.count,
        hlen, chunks_map_decS 2 (by norm_num) xs h2.2]
  | S16_3 xs =>
      simp only [Value.inRange, Bool.and_eq_true, decide_eq_true_eq] at h2
      have hlen : (xs.flatMap (encS 2)).length = 6 := by
        rw [length_flatMap_const (encS 2) 2 xs (fun x _ => length_encS 2 x)]
        omega
      simp [Value.to_bytes, PResult.bind, Value.standard_type,
        Value.from_standard_type, Value.from_standard_type_single,
        StandardType.nodeSize, StandardType.size, StandardType.count,
        hlen, chunks_map_decS 2 (by norm_num) xs h2.2]
  | S16_4 xs =>
      simp only [Value.inRange, Bool.and_eq_true, decide_eq_true_eq] at h2
      have hlen : (xs.flatMap (encS 2)).length = 8 := by
        rw [length_flatMap_const (encS 2) 2 xs (fun x _ => length_encS 2 x)]
        omega
      simp [Value.to_bytes, PResult.bind, Value.standard_type,
        Value.from_standard_type, Value.from_standard_type_single,
        StandardType.nodeSize, StandardType.size, StandardType.count,
        hlen, chunks_map_decS 2 (by norm_num) xs h2.2]
  | Vs16 xs =>
      simp only [Value.inRange, Bool.and_eq_true, decide_eq_true_eq] at h2
      have hlen : (xs.flatMap (encS 2)).length = 16 := by
        rw [length_flatMap_const (encS 2) 2 xs (fun x _ => length_encS 2 x)]
        omega
      simp [Value.to_bytes, PResult.bind, Value.standard_type,
        Value.from_standard_type, Value.from_standard_type_single,
        StandardType.nodeSize, StandardType.size, StandardType.count,
        hlen, chunks_map_decS 2 (by norm_num) xs h2.2]
  | S32_2 xs =>
      simp only [Value.inRange, Bool.and_eq_true, decide_eq_true_eq] at h2
      have hlen : (xs.flatMap (encS 4)).length = 8 := by
        rw [length_flatMap_const (encS 4) 4 xs (fun x _ => length_encS 4 x)]
        omega
      simp [Value.to_bytes, PResult.bind, Value.standard_type,
        Value.from_standard_type, Value.from_standard_type_single,
        StandardType.nodeSize, StandardType.size, StandardType.count,
        hlen, chunks_map_decS 4 (by norm_num) xs h2.2]
  | S32_3 xs =>
      simp only [Value.inRange, Bool.and_eq_true, decide_eq_true_eq] at h2
      have hlen : (xs.flatMap (encS 4)).length = 12 := by
        rw [length_flatMap_const (encS 4) 4 xs (fun x _ => length_encS 4 x)]
        omega
      simp [Value.to_bytes, PResult.bind, Value.standard_type,
        Value.from_standard_type, Value.from_standard_type_single,
        StandardType.nodeSize, StandardType.size, StandardType.count,
        hlen, chunks_map_decS 4 (by norm_num) xs h2.2]
  | S32_4 xs =>
      simp only [Value.inRange, Bool.and_eq_true, decide_eq_true_eq] at h2
      have hlen : (xs.flatMap (encS 4)).length = 16 := by
        rw [length_flatMap_const (encS 4) 4 xs (fun x _ => length_encS 4 x)]
        omega
      simp [Value.to_bytes, PResult.bind, Value.standard_type,
        Value.from_standard_type, Value.from_standard_type_single,
        StandardType.nodeSize, StandardType.size, StandardType.count,
        hlen, chunks_map_decS 4 (by norm_num) xs h2.2]
  | S64_2 xs =>
      simp only [Value.inRange, Bool.and_eq_true, decide_eq_true_eq] at h2
      have hlen : (xs.flatMap (encS 8)).length = 16 := by
        rw [length_flatMap_const (encS 8) 8 xs (fun x _ => length_encS 8 x)]
        omega
      simp [Value.to_bytes, PResult.bind, Value.standard_type,
        Value.from_standard_type, Value.from_standard_type_single,
        StandardType.nodeSize, StandardType.size, StandardType.count,
        hlen, chunks_map_decS 8 (by norm_num) xs h2.2]
  | S64_3 xs =>
      simp only [Value.inRange, Bool.and_eq_true, decide_eq_true_eq] at h2
      have hlen : (xs.flatMap (encS 8)).length = 24 := by
        rw [length_flatMap_const (encS 8) 8 xs (fun x _ => length_encS 8 x)]
        omega
      simp [Value.to_bytes, PResult.bind, Value.standard_type,
        Value.from_standard_type, Value.from_standard_type_single,
        StandardType.nodeSize, StandardType.size, StandardType.count,
        hlen, chunks_map_decS 8 (by norm_num) xs h2.2]
  | S64_4 xs =>
      simp only [Value.inRange, Bool.and_eq_true, decide_eq_true_eq] at h2
      have hlen : (xs.flatMap (encS 8)).length = 32 := by
        rw [length_flatMap_const (encS 8) 8 xs (fun x _ => length_encS 8 x)]
        omega
      simp [Value.to_bytes, PResult.bind, Value.standard_type,
        Value.from_standard_type, Value.from_standard_type_single,
        StandardType.nodeSize, StandardType.size, StandardType.count,
        hlen, chunks_map_decS 8 (by norm_num) xs h2.2]
  | U16_2 xs =>
      simp only [Value.inRange, Bool.and_eq_true, decide_eq_true_eq] at h2
      have hlen : (xs.flatMap (beBytes 2)).length = 4 := by
        rw [length_flatMap_const (beBytes 2) 2 xs (fun x _ => length_beBytes 2 x)]
        omega
      simp [Value.to_bytes, PResult.bind, Value.standard_type,
        Value.from_standard_type, Value.from_standard_type_single,
        StandardType.nodeSize, StandardType.size, StandardType.count,
        hlen, chunks_map_u 2 (by norm_num) xs h2.2]
  | U16_3 xs =>
      simp only [Value.inRange, Bool.and_eq_true, decide_eq_true_eq] at h2
      have hlen : (xs.flatMap (beBytes 2)).length = 6 := by
        rw [length_flatMap_const (beBytes 2) 2 xs (fun x _ => length_beBytes 2 x)]
        omega
      simp [Value.to_bytes, PResult.bind, Value.standard_type,
        Value.from_standard_type, Value.from_standard_type_single,
        StandardType.nodeSize, StandardType.size, StandardType.count,
        hlen, chunks_map_u 2 (by norm_num) xs h2.2]
  | U16_4 xs =>
      simp only [Value.inRange, Bool.and_eq_true, decide_eq_true_eq] at h2
      have hlen : (xs.flatMap (beBytes 2)).length = 8 := by
        rw [length_flatMap_const (beBytes 2) 2 xs (fun x _ => length_beBytes 2 x)]
        omega
      simp [Value.to_bytes, PResult.bind, Value.standard_type,
        Value.from_standard_type, Value.from_standard_type_single,
        StandardType.nodeSize, StandardType.size, StandardType.count,
        hlen, chunks_map_u 2 (by norm_num) xs h2.2]
  | Vu16 xs =>
      simp only [Value.inRange, Bool.and_eq_true, decide_eq_true_eq] at h2
      have hlen : (xs.flatMap (beBytes 2)).length = 16 := by
        rw [length_flatMap_const (beBytes 2) 2 xs (fun x _ => length_beBytes 2 x)]
        omega
      simp [Value.to_bytes, PResult.bind, Value.standard_type,
        Value.from_standard_type, Value.from_standard_type_single,
        StandardType.nodeSize, StandardType.size, StandardType.count,
        hlen, chunks_map_u 2 (by norm_num) xs h2.2]
  | U32_2 xs =>
      simp only [Value.inRange, Bool.and_eq_true, decide_eq_true_eq] at h2
      have hlen : (xs.flatMap (beBytes 4)).length = 8 := by
        rw [length_flatMap_const (beBytes 4) 4 xs (fun x _ => length_beBytes 4 x)]
        omega
      simp [Value.to_bytes, PResult.bind, Value.standard_type,
        Value.from_standard_type, Value.from_standard_type_single,
        StandardType.nodeSize, StandardType.size, StandardType.count,
        hlen, chunks_map_u 4 (by norm_num) xs h2.2]
  | U32_3 xs =>
      simp only [Value.inRange, Bool.and_eq_true, decide_eq_true_eq] at h2
      have hlen : (xs.flatMap (beBytes 4)).length = 12 := by
        rw [length_flatMap_const (beBytes 4) 4 xs (fun x _ => length_beBytes 4 x)]
        omega
      simp [Value.to_bytes, PResult.bind, Value.standard_type,
        Value.from_standard_type, Value.from_standard_type_single,
        StandardType.nodeSize, StandardType.size, StandardType.count,
        hlen, chunks_map_u 4 (by norm_num) xs h2.2]
  | U32_4 xs =>
      simp only [Value.inRange, Bool.and_eq_true, decide_eq_true_eq] at h2
      have hlen : (xs.flatMap (beBytes 4)).length = 16 := by
        rw [length_flatMap_const (beBytes 4) 4 xs (fun x _ => length_beBytes 4 x)]
        omega
      simp [Value.to_bytes, PResult.bind, Value.standard_type,
        Value.from_standard_type, Value.from_standard_type_single,
        StandardType.nodeSize, StandardType.size, StandardType.count,
        hlen, chunks_map_u 4 (by norm_num) xs h2.2]
  | U64_2 xs =>
      simp only [Value.inRange, Bool.and_eq_true, decide_eq_true_eq] at h2
      have hlen : (xs.flatMap (beBytes 8)).length = 16 := by
        rw [length_flatMap_const (beBytes 8) 8 xs (fun x _ => length_beBytes 8 x)]
        omega
      simp [Value.to_bytes, PResult.bind, Value.standard_type,
        Value.from_standard_type, Value.from_standard_type_single,
        StandardType.nodeSize, StandardType.size, StandardType.count,
        hlen, chunks_map_u 8 (by norm_num) xs h2.2]
  | U64_3 xs =>
      simp only [Value.inRange, Bool.and_eq_true, decide_eq_true_eq] at h2
      have hlen : (xs.flatMap (beBytes 8)).length = 24 := by
        rw [length_flatMap_const (beBytes 8) 8 xs (fun x _ => length_beBytes 8 x)]
        omega
      simp [Value.to_bytes, PResult.bind, Value.standard_type,
        Value.from_standard_type, Value.from_standard_type_single,
        StandardType.nodeSize, StandardType.size, StandardType.count,
        hlen, chunks_map_u 8 (by norm_num) xs h2.2]
  | U64_4 xs =>
      simp only [Value.inRange, Bool.and_eq_true, decide_eq_true_eq] at h2
      have hlen : (xs.flatMap (beBytes 8)).length = 32 := by
        rw [length_flatMap_const (beBytes 8) 8 xs (fun x _ => length_beBytes 8 x)]
        omega
      simp [Value.to_bytes, PResult.bind, Value.standard_type,
        Value.from_standard_type, Value.from_standard_type_single,
        StandardType.nodeSize, StandardType.size, StandardType.count,
        hlen, chunks_map_u 8 (by norm_num) xs h2.2]
  | Float2 xs =>
      simp only [Value.inRange, Bool.and_eq_true, decide_eq_true_eq] at h2
      have hlen : (xs.flatMap (beBytes 4)).length = 8 := by
        rw [length_flatMap_const (beBytes 4) 4 xs (fun x _ => length_beBytes 4 x)]
        omega
      simp [Value.to_bytes, PResult.bind, Value.standard_type,
        Value.from_standard_type, Value.from_standard_type_single,
        StandardType.nodeSize, StandardType.size, StandardType.count,
        hlen, chunks_map_u 4 (by norm_num) xs h2.2]
  | Float3 xs =>
      simp only [Value.inRange, Bool.and_eq_true, decide_eq_true_eq] at h2
      have hlen : (xs.flatMap (beBytes 4)).length = 12 := by
        rw [length_flatMap_const (beBytes 4) 4 xs (fun x _ => length_beBytes 4 x)]
        omega
      simp [Value.to_bytes, PResult.bind, Value.standard_type,
        Value.from_standard_type, Value.from_standard_type_single,
        StandardType.nodeSize, StandardType.size, StandardType.count,
        hlen, chunks_map_u 4 (by norm_num) xs h2.2]
  | Float4 xs =>
      simp only [Value.inRange, Bool.and_eq_true, decide_eq_true_eq] at h2
      have hlen : (xs.flatMap (beBytes 4)).length = 16 := by
        rw [length_flatMap_const (beBytes 4) 4 xs (fun x _ => length_beBytes 4 x)]
        omega
      simp [Value.to_bytes, PResult.bind, Value.standard_type,
        Value.from_standard_type, Value.from_standard_type_single,
        StandardType.nodeSize, StandardType.size, StandardType.count,
        hlen, chunks_map_u 4 (by norm_num) xs h2.2]
  | Double2 xs =>
      simp only [Value.inRange, Bool.and_eq_true, decide_eq_true_eq] at h2
      have hlen : (xs.flatMap (beBytes 8)).length = 16 := by
        rw [length_flatMap_const (beBytes 8) 8 xs (fun x _ => length_beBytes 8 x)]
        omega
      simp [Value.to_bytes, PResult.bind, Value.standard_type,
        Value.from_standard_type, Value.from_standard_type_single,
        StandardType.nodeSize, StandardType.size, StandardType.count,
        hlen, chunks_map_u 8 (by norm_num) xs h2.2]
  | Double3 xs =>
      simp only [Value.inRange, Bool.and_eq_true, decide_eq_true_eq] at h2
      have hlen : (xs.flatMap (beBytes 8)).length = 24 := by
        rw [length_flatMap_const (beBytes 8) 8 xs (fun x _ => length_beBytes 8 x)]
        omega
      simp [Value.to_bytes, PResult.bind, Value.standard_type,
        Value.from_standard_type, Value.from_standard_type_single,
        StandardType.nodeSize, StandardType.size, StandardType.count,
        hlen, chunks_map_u 8 (by norm_num) xs h2.2]
  | Double4 xs =>
      simp only [Value.inRange, Bool.and_eq_true, decide_eq_true_eq] at h2
      have hlen : (xs.flatMap (beBytes 8)).length = 32 := by
        rw [length_flatMap_const (beBytes 8) 8 xs (fun x _ => length_beBytes 8 x)]
        omega
      simp [Value.to_bytes, PResult.bind, Value.standard_type,
        Value.from_standard_type, Value.from_standard_type_single,
        StandardType.nodeSize, StandardType.size, StandardType.count,
        hlen, chunks_map_u 8 (by norm_num) xs h2.2]
  | String s => simp [Value.isFixedSize] at h1
  | Binary s => simp [Value.isFixedSize] at h1
  | Attribute s => simp [Value.isFixedSize] at h1
  | Array t vs => simp [Value.isFixedSize] at h1
  | Node n => simp [Value.isFixedSize] at h1

/-- C1 witness: the round-trip evaluated at the concrete value `S32(-1)`. -/
theorem C1_fixed_size_roundtrip_witness :
    (Value.S32 (-1)).isFixedSize = true ∧ (Value.S32 (-1)).inRange = true ∧
    PResult.bind (Value.S32 (-1)).to_bytes
      (fun bs =>
        Value.from_standard_type (Value.S32 (-1)).standard_type false bs) =
      .ok (some (Value.S32 (-1))) :=
  ⟨rfl, by decide,
    C1_fixed_size_roundtrip (Value.S32 (-1)) rfl (by decide)⟩

theorem PResult.bind_eq_ok {ε α β : Type} {r : PResult ε α}
    {f : α → PResult ε β} {b : β} (h : r.bind f = .ok b) :
    ∃ a, r = .ok a ∧ f a = .ok b := by
  cases r with
  | panic m => simp [PResult.bind] at h
  | err e => simp [PResult.bind] at h
  | ok a => exact ⟨a, rfl, h⟩

theorem from_standard_type_false_eq (t : StandardType) (input : List Nat) :
    Value.from_standard_type t false input =
      Value.from_standard_type_single t input := rfl

theorem from_standard_type_true_eq (t : StandardType) (input : List Nat) :
    Value.from_standard_type t true input =
      (if t.nodeSize = 0 then .panic "chunk size must be non-zero"
       else
         (pmapM (Value.parseChunk t) (chunks t.nodeSize input)).bind
           fun values => .ok (some (.Array t values))) := rfl

theorem from_string_false_eq (fp : FloatParse) (t : StandardType)
    (input : Str) (arr_count : Nat) :
    Value.from_string fp t input false arr_count =
      Value.from_string_single fp t input := rfl

set_option maxHeartbeats 1000000 in
theorem single_ne_panic (t : StandardType) (input : List Nat) (m : String) :
    Value.from_standard_type_single t input ≠ .panic m := by
  unfold Value.from_standard_type_single
  intro h
  split at h <;>
    (try simp_all [ite_eq_iff]) <;>
    (cases hpb : parseBools input with
     | panic m2 => exact absurd hpb (parseBools_ne_panic input m2)
     | err e => simp_all [PResult.bind]
     | ok bs => simp_all [PResult.bind])

theorem nodeSize_pos_ne_strbin (t : StandardType) (h : 0 < t.nodeSize) :
    t ≠ .String ∧ t ≠ .Binary := by
  constructor <;> rintro rfl <;>
    simp [StandardType.nodeSize, StandardType.size, StandardType.count] at h

theorem single_ok_length (t : StandardType) (input : List Nat)
    (v : Option Value) (h : Value.from_standard_type_single t input = .ok v)
    (h3 : t ≠ .String) (h4 : t ≠ .Binary) : input.length = t.nodeSize := by
  by_contra hne
  unfold Value.from_standard_type_single at h
  rw [if_pos ⟨fun hc => hc.elim h3 h4, hne⟩] at h
  simp at h

theorem parseChunk_ne_panic (t : StandardType) (c : List Nat) (m : String) :
    Value.parseChunk t c ≠ .panic m := by
  unfold Value.parseChunk
  cases hs : Value.from_standard_type_single t c with
  | panic m2 => exact absurd hs (single_ne_panic t c m2)
  | err e => simp [PResult.bind]
  | ok o => cases o <;> simp [PResult.bind]

theorem parseChunk_ok_length (t : StandardType) (c : List Nat) (v : Value)
    (h : Value.parseChunk t c = .ok v) (h3 : t ≠ .String)
    (h4 : t ≠ .Binary) : c.length = t.nodeSize := by
  unfold Value.parseChunk at h
  obtain ⟨o, ho, _⟩ := PResult.bind_eq_ok h
  exact single_ok_length t c o ho h3 h4

theorem chunks_all_dvd_aux (k : Nat) (hk : 0 < k) (n : Nat) :
    ∀ l : List α, l.length ≤ n → (∀ c ∈ chunks k l, c.length = k) →
      k ∣ l.length := by
  induction n with
  | zero =>
      intro l hl _
      have : l.length = 0 := by omega
      simp [this]
  | succ n ih =>
      intro l hl hc
      cases l with
      | nil => simp
      | cons x xs =>
          rw [chunks] at hc
          have h1 : ((x :: xs).take k).length = k := hc _ (by simp)
          have hlen : k ≤ (x :: xs).length := by
            rw [List.length_take] at h1
            omega
          have h2 : k ∣ (xs.drop (k - 1)).length := by
            apply ih (xs.drop (k - 1))
            · simp only [List.length_drop]
              simp only [List.length_cons] at hl
              omega
            · intro c hcc
              exact hc c (by simp [hcc])
          obtain ⟨m, hm⟩ := h2
          refine ⟨m + 1, ?_⟩
          have hx : k * (m + 1) = k * m + k := by ring
          simp only [List.length_drop] at hm
          simp only [List.length_cons] at hlen ⊢
          omega

theorem chunks_all_dvd (k : Nat) (hk : 0 < k) (l : List α)
    (h : ∀ c ∈ chunks k l, c.length = k) : k ∣ l.length :=
  chunks_all_dvd_aux k hk l.length l le_rfl h

/-- C3: for every primitive type with positive element byte size, the
array parse rejects inputs whose length is not a multiple of
`size * count` with `SizeMismatch` (and the `is_array` branch of
`Value::from_standard_type` also errors), and on a multiple it decodes
exactly `length / (size * count)` elements. -/
theorem C3_array_length_discipline (t : StandardType) (input : List Nat)
    (hns : 0 < t.nodeSize) :
    (¬ t.nodeSize ∣ input.length →
       ValueArray.from_standard_type t input =
         .err (.sizeMismatch t t.nodeSize input.length) ∧
       (Value.from_standard_type t true input).isErr) ∧
    (t.nodeSize ∣ input.length →
       (∀ arr, ValueArray.from_standard_type t input = .ok (some arr) →
          arr.numElements = input.length / t.nodeSize) ∧
       (∀ t2 vs,
          Value.from_standard_type t true input = .ok (some (.Array t2 vs)) →
          vs.length = input.length / t.nodeSize)) := by
  have hns0 : ¬ t.nodeSize = 0 := by omega
  constructor
  · intro hndvd
    constructor
    · simp only [ValueArray.from_standard_type]
      rw [if_neg hns0, if_pos (fun heq => hndvd ⟨_, heq.symm⟩)]
    · rw [from_standard_type_true_eq, if_neg hns0]
      cases hp : pmapM (Value.parseChunk t) (chunks t.nodeSize input) with
      | panic m =>
          exact absurd hp
            (pmapM_ne_panic _ (fun c m2 => parseChunk_ne_panic t c m2) _ m)
      | err e => simp [PResult.bind, PResult.isErr]
      | ok ys =>
          exfalso
          apply hndvd
          refine chunks_all_dvd t.nodeSize hns input ?hc
          intro c hc
          obtain ⟨b, hb⟩ := pmapM_ok_mem _ _ _ hp c hc
          have hsb := nodeSize_pos_ne_strbin t hns
          exact parseChunk_ok_length t c b hb hsb.1 hsb.2
  · intro hdvd
    have hcheck : ¬ t.nodeSize * (input.length / t.nodeSize) ≠ input.length :=
      fun hne => hne (Nat.mul_div_cancel' hdvd)
    constructor
    · intro arr harr
      simp only [ValueArray.from_standard_type] at harr
      rw [if_neg hns0, if_neg hcheck] at harr
      cases t <;> dsimp only at harr <;>
        first
          | (injection harr with h1
             exact Option.noConfusion h1)
          | (injection harr with h1
             injection h1 with h2
             subst h2
             simp only [ValueArray.numElements, List.length_map]
             exact length_chunks_dvd _ (by decide) input hdvd)
          | (obtain ⟨ys, hp, hy⟩ := PResult.bind_eq_ok harr
             injection hy with h1
             injection h1 with h2
             subst h2
             simp only [ValueArray.numElements]
             rw [pmapM_ok_length _ _ _ hp]
             exact length_chunks_dvd _ (by decide) input hdvd)
    · intro t2 vs hok
      rw [from_standard_type_true_eq, if_neg hns0] at hok
      obtain ⟨ys, hp, hy⟩ := PResult.bind_eq_ok hok
      injection hy with h1
      injection h1 with h2
      injection h2 with h3 h4
      subst h4
      rw [pmapM_ok_length _ _ _ hp]
      exact length_chunks_dvd _ hns input hdvd

/-- C3 witness: a `u16` array over three bytes (not a multiple of 2) is
rejected with `SizeMismatch(u16, 2, 3)`. -/
theorem C3_array_length_discipline_witness :
    ValueArray.from_standard_type .U16 [0, 1, 0] =
      .err (.sizeMismatch .U16 2 3) :=
  ((C3_array_length_discipline .U16 [0, 1, 0] (by decide)).1 (by decide)).1

/-- C4: every in-range fixed-size value serializes to exactly
`size * count` bytes, and `Value::from_standard_type(t, false, input)`
rejects with `SizeMismatch` every input whose length differs from
`size * count` (for every type except `str` and `bin`, whose check is
skipped). -/
theorem C4_fixed_size_byte_length :
    (∀ v : Value, v.isFixedSize = true → v.inRange = true →
       ∃ bs, v.to_bytes = .ok bs ∧ bs.length = v.standard_type.nodeSize) ∧
    (∀ t : StandardType, t ≠ .String → t ≠ .Binary →
       ∀ input : List Nat, input.length ≠ t.nodeSize →
         Value.from_standard_type t false input =
           .err (.sizeMismatch t t.nodeSize input.length)) := by
  constructor
  · intro v h1 h2
    cases v with
    | S8 n => exact ⟨_, rfl, by simp [length_encS, Value.standard_type, StandardType.nodeSize, StandardType.size, StandardType.count]⟩
    | S16 n => exact ⟨_, rfl, by simp [length_encS, Value.standard_type, StandardType.nodeSize, StandardType.size, StandardType.count]⟩
    | S32 n => exact ⟨_, rfl, by simp [length_encS, Value.standard_type, StandardType.nodeSize, StandardType.size, StandardType.count]⟩
    | S64 n => exact ⟨_, rfl, by simp [length_encS, Value.standard_type, StandardType.nodeSize, StandardType.size, StandardType.count]⟩
    | U8 n => exact ⟨_, rfl, by simp [length_beBytes, Value.standard_type, StandardType.nodeSize, StandardType.size, StandardType.count]⟩
    | U16 n => exact ⟨_, rfl, by simp [length_beBytes, Value.standard_type, StandardType.nodeSize, StandardType.size, StandardType.count]⟩
    | U32 n => exact ⟨_, rfl, by simp [length_beBytes, Value.standard_type, StandardType.nodeSize, StandardType.size, StandardType.count]⟩
    | U64 n => exact ⟨_, rfl, by simp [length_beBytes, Value.standard_type, StandardType.nodeSize, StandardType.size, StandardType.count]⟩
    | Time n => exact ⟨_, rfl, by simp [length_beBytes, Value.standard_type, StandardType.nodeSize, StandardType.size, StandardType.count]⟩
    | Float n => exact ⟨_, rfl, by simp [length_beBytes, Value.standard_type, StandardType.nodeSize, StandardType.size, StandardType.count]⟩
    | Double n => exact ⟨_, rfl, by simp [length_beBytes, Value.standard_type, StandardType.nodeSize, StandardType.size, StandardType.count]⟩
    | Ip4 xs =>
        simp only [Value.inRange, Bool.and_eq_true, decide_eq_true_eq] at h2
        exact ⟨_, rfl, by simp [Value.standard_type, StandardType.nodeSize, StandardType.size, StandardType.count, h2.1]⟩
    | Boolean b => exact ⟨_, rfl, by simp [Value.standard_type, StandardType.nodeSize, StandardType.size, StandardType.count]⟩
    | S8_2 xs =>
        simp only [Value.inRange, Bool.and_eq_true, decide_eq_true_eq] at h2
        refine ⟨_, rfl, ?_⟩
        rw [length_flatMap_const (encS 1) 1 xs (fun x _ => length_encS 1 x), h2.1]
        simp [Value.standard_type, StandardType.nodeSize, StandardType.size, StandardType.count]
    | S8_3 xs =>
        simp only [Value.inRange, Bool.and_eq_true, decide_eq_true_eq] at h2
        refine ⟨_, rfl, ?_⟩
        rw [length_flatMap_const (encS 1) 1 xs (fun x _ => length_encS 1 x), h2.1]
        simp [Value.standard_type, StandardType.nodeSize, StandardType.size, StandardType.count]
    | S8_4 xs =>
        simp only [Value.inRange, Bool.and_eq_true, decide_eq_true_eq] at h2
        refine ⟨_, rfl, ?_⟩
        rw [length_flatMap_const (encS 1) 1 xs (fun x _ => length_encS 1 x), h2.1]
        simp [Value.standard_type, StandardType.nodeSize, StandardType.size, StandardType.count]
    | Vs8 xs =>
        simp only [Value.inRange, Bool.and_eq_true, decide_eq_true_eq] at h2
        refine ⟨_, rfl, ?_⟩
        rw [length_flatMap_const (encS 1) 1 xs (fun x _ => length_encS 1 x), h2.1]
        simp [Value.standard_type, StandardType.nodeSize, StandardType.size, StandardType.count]
    | U8_2 xs =>
        simp only [Value.inRange, Bool.and_eq_true, decide_eq_true_eq] at h2
        refine ⟨_, rfl, ?_⟩
        rw [length_flatMap_const (beBytes 1) 1 xs (fun x _ => length_beBytes 1 x), h2.1]
        simp [Value.standard_type, StandardType.nodeSize, StandardType.size, StandardType.count]
    | U8_3 xs =>
        simp only [Value.inRange, Bool.and_eq_true, decide_eq_true_eq] at h2
        refine ⟨_, rfl, ?_⟩
        rw [length_flatMap_const (beBytes 1) 1 xs (fun x _ => length_beBytes 1 x), h2.1]
        simp [Value.standard_type, StandardType.nodeSize, StandardType.size, StandardType.count]
    | U8_4 xs =>
        simp only [Value.inRange, Bool.and_eq_true, decide_eq_true_eq] at h2
        refine ⟨_, rfl, ?_⟩
        rw [length_flatMap_const (beBytes 1) 1 xs (fun x _ => length_beBytes 1 x), h2.1]
        simp [Value.standard_type, StandardType.nodeSize, StandardType.size, StandardType.count]
    | Vu8 xs =>
        simp only [Value.inRange, Bool.and_eq_true, decide_eq_true_eq] at h2
        refine ⟨_, rfl, ?_⟩
        rw [length_flatMap_const (beBytes 1) 1 xs (fun x _ => length_beBytes 1 x), h2.1]
        simp [Value.standard_type, StandardType.nodeSize, StandardType.size, StandardType.count]
    | Boolean2 xs =>
        simp only [Value.inRange, decide_eq_true_eq] at h2
        exact ⟨_, rfl, by simp [Value.standard_type, StandardType.nodeSize, StandardType.size, StandardType.count, List.length_map, h2]⟩
    | Boolean3 xs =>
        simp only [Value.inRange, decide_eq_true_eq] at h2
        exact ⟨_, rfl, by simp [Value.standard_type, StandardType.nodeSize, StandardType.size, StandardType.count, List.length_map, h2]⟩
    | Boolean4 xs =>
        simp only [Value.inRange, decide_eq_true_eq] at h2
        exact ⟨_, rfl, by simp [Value.standard_type, StandardType.nodeSize, StandardType.size, StandardType.count, List.length_map, h2]⟩
    | Vb xs =>
        simp only [Value.inRange, decide_eq_true_eq] at h2
        exact ⟨_, rfl, by simp [Value.standard_type, StandardType.nodeSize, StandardType.size, StandardType.count, List.length_map, h2]⟩
    | S16_2 xs =>
        simp only [Value.inRange, Bool.and_eq_true, decide_eq_true_eq] at h2
        refine ⟨_, rfl, ?_⟩
        rw [length_flatMap_const (encS 2) 2 xs (fun x _ => length_encS 2 x), h2.1]
        simp [Value.standard_type, StandardType.nodeSize, StandardType.size, StandardType.count]
    | S16_3 xs =>
        simp only [Value.inRange, Bool.and_eq_true, decide_eq_true_eq] at h2
        refine ⟨_, rfl, ?_⟩
        rw [length_flatMap_const (encS 2) 2 xs (fun x _ => length_encS 2 x), h2.1]
        simp [Value.standard_type, StandardType.nodeSize, StandardType.size, StandardType.count]
    | S16_4 xs =>
        simp only [Value.inRange, Bool.and_eq_true, decide_eq_true_eq] at h2
        refine ⟨_, rfl, ?_⟩
        rw [length_flatMap_const (encS 2) 2 xs (fun x _ => length_encS 2 x), h2.1]
        simp [Value.standard_type, StandardType.nodeSize, StandardType.size, StandardType.count]
    | Vs16 xs =>
        simp only [Value.inRange, Bool.and_eq_true, decide_eq_true_eq] at h2
        refine ⟨_, rfl, ?_⟩
        rw [length_flatMap_const (encS 2) 2 xs (fun x _ => length_encS 2 x), h2.1]
        simp [Value.standard_type, StandardType.nodeSize, StandardType.size, StandardType.count]
    | S32_2 xs =>
        simp only [Value.inRange, Bool.and_eq_true, decide_eq_true_eq] at h2
        refine ⟨_, rfl, ?_⟩
        rw [length_flatMap_const (encS 4) 4 xs (fun x _ => length_encS 4 x), h2.1]
        simp [Value.standard_type, StandardType.nodeSize, StandardType.size, StandardType.count]
    | S32_3 xs =>
        simp only [Value.inRange, Bool.and_eq_true, decide_eq_true_eq] at h2
        refine ⟨_, rfl, ?_⟩
        rw [length_flatMap_const (encS 4) 4 xs (fun x _ => length_encS 4 x), h2.1]
        simp [Value.standard_type, StandardType.nodeSize, StandardType.size, StandardType.count]
    | S32_4 xs =>
        simp only [Value.inRange, Bool.and_eq_true, decide_eq_true_eq] at h2
        refine ⟨_, rfl, ?_⟩
        rw [length_flatMap_const (encS 4) 4 xs (fun x _ => length_encS 4 x), h2.1]
        simp [Value.standard_type, StandardType.nodeSize, StandardType.size, StandardType.count]
    | S64_2 xs =>
        simp only [Value.inRange, Bool.and_eq_true, decide_eq_true_eq] at h2
        refine ⟨_, rfl, ?_⟩
        rw [length_flatMap_const (encS 8) 8 xs (fun x _ => length_encS 8 x), h2.1]
        simp [Value.standard_type, StandardType.nodeSize, StandardType.size, StandardType.count]
    | S64_3 xs =>
        simp only [Value.inRange, Bool.and_eq_true, decide_eq_true_eq] at h2
        refine ⟨_, rfl, ?_⟩
        rw [length_flatMap_const (encS 8) 8 xs (fun x _ => length_encS 8 x), h2.1]
        simp [Value.standard_type, StandardType.nodeSize, StandardType.size, StandardType.count]
    | S64_4 xs =>
        simp only [Value.inRange, Bool.and_eq_true, decide_eq_true_eq] at h2
        refine ⟨_, rfl, ?_⟩
        rw [length_flatMap_const (encS 8) 8 xs (fun x _ => length_encS 8 x), h2.1]
        simp [Value.standard_type, StandardType.nodeSize, StandardType.size, StandardType.count]
    | U16_2 xs =>
        simp only [Value.inRange, Bool.and_eq_true, decide_eq_true_eq] at h2
        refine ⟨_, rfl, ?_⟩
        rw [length_flatMap_const (beBytes 2) 2 xs (fun x _ => length_beBytes 2 x), h2.1]
        simp [Value.standard_type, StandardType.nodeSize, StandardType.size, StandardType.count]
    | U16_3 xs =>
        simp only [Value.inRange, Bool.and_eq_true, decide_eq_true_eq] at h2
        refine ⟨_, rfl, ?_⟩
        rw [length_flatMap_const (beBytes 2) 2 xs (fun x _ => length_beBytes 2 x), h2.1]
        simp [Value.standard_type, StandardType.nodeSize, StandardType.size, StandardType.count]
    | U16_4 xs =>
        simp only [Value.inRange, Bool.and_eq_true, decide_eq_true_eq] at h2
        refine ⟨_, rfl, ?_⟩
        rw [length_flatMap_const (beBytes 2) 2 xs (fun x _ => length_beBytes 2 x), h2.1]
        simp [Value.standard_type, StandardType.nodeSize, StandardType.size, StandardType.count]
    | Vu16 xs =>
        simp only [Value.inRange, Bool.and_eq_true, decide_eq_true_eq] at h2
        refine ⟨_, rfl, ?_⟩
        rw [length_flatMap_const (beBytes 2) 2 xs (fun x _ => length_beBytes 2 x), h2.1]
        simp [Value.standard_type, StandardType.nodeSize, StandardType.size, StandardType.count]
    | U32_2 xs =>
        simp only [Value.inRange, Bool.and_eq_true, decide_eq_true_eq] at h2
        refine ⟨_, rfl, ?_⟩
        rw [length_flatMap_const (beBytes 4) 4 xs (fun x _ => length_beBytes 4 x), h2.1]
        simp [Value.standard_type, StandardType.nodeSize, StandardType.size, StandardType.count]
    | U32_3 xs =>
        simp only [Value.inRange, Bool.and_eq_true, decide_eq_true_eq] at h2
        refine ⟨_, rfl, ?_⟩
        rw [length_flatMap_const (beBytes 4) 4 xs (fun x _ => length_beBytes 4 x), h2.1]
        simp [Value.standard_type, StandardType.nodeSize, StandardType.size, StandardType.count]
    | U32_4 xs =>
        simp only [Value.inRange, Bool.and_eq_true, decide_eq_true_eq] at h2
        refine ⟨_, rfl, ?_⟩
        rw [length_flatMap_const (beBytes 4) 4 xs (fun x _ => length_beBytes 4 x), h2.1]
        simp [Value.standard_type, StandardType.nodeSize, StandardType.size, StandardType.count]
    | U64_2 xs =>
        simp only [Value.inRange, Bool.and_eq_true, decide_eq_true_eq] at h2
        refine ⟨_, rfl, ?_⟩
        rw [length_flatMap_const (beBytes 8) 8 xs (fun x _ => length_beBytes 8 x), h2.1]
        simp [Value.standard_type, StandardType.nodeSize, StandardType.size, StandardType.count]
    | U64_3 xs =>
        simp only [Value.inRange, Bool.and_eq_true, decide_eq_true_eq] at h2
        refine ⟨_, rfl, ?_⟩
        rw [length_flatMap_const (beBytes 8) 8 xs (fun x _ => length_beBytes 8 x), h2.1]
        simp [Value.standard_type, StandardType.nodeSize, StandardType.size, StandardType.count]
    | U64_4 xs =>
        simp only [Value.inRange, Bool.and_eq_true, decide_eq_true_eq] at h2
        refine ⟨_, rfl, ?_⟩
        rw [length_flatMap_const (beBytes 8) 8 xs (fun x _ => length_beBytes 8 x), h2.1]
        simp [Value.standard_type, StandardType.nodeSize, StandardType.size, StandardType.count]
    | Float2 xs =>
        simp only [Value.inRange, Bool.and_eq_true, decide_eq_true_eq] at h2
        refine ⟨_, rfl, ?_⟩
        rw [length_flatMap_const (beBytes 4) 4 xs (fun x _ => length_beBytes 4 x), h2.1]
        simp [Value.standard_type, StandardType.nodeSize, StandardType.size, StandardType.count]
    | Float3 xs =>
        simp only [Value.inRange, Bool.and_eq_true, decide_eq_true_eq] at h2
        refine ⟨_, rfl, ?_⟩
        rw [length_flatMap_const (beBytes 4) 4 xs (fun x _ => length_beBytes 4 x), h2.1]
        simp [Value.standard_type, StandardType.nodeSize, StandardType.size, StandardType.count]
    | Float4 xs =>
        simp only [Value.inRange, Bool.and_eq_true, decide_eq_true_eq] at h2
        refine ⟨_, rfl, ?_⟩
        rw [length_flatMap_const (beBytes 4) 4 xs (fun x _ => length_beBytes 4 x), h2.1]
        simp [Value.standard_type, StandardType.nodeSize, StandardType.size, StandardType.count]
    | Double2 xs =>
        simp only [Value.inRange, Bool.and_eq_true, decide_eq_true_eq] at h2
        refine ⟨_, rfl, ?_⟩
        rw [length_flatMap_const (beBytes 8) 8 xs (fun x _ => length_beBytes 8 x), h2.1]
        simp [Value.standard_type, StandardType.nodeSize, StandardType.size, StandardType.count]
    | Double3 xs =>
        simp only [Value.inRange, Bool.and_eq_true, decide_eq_true_eq] at h2
        refine ⟨_, rfl, ?_⟩
        rw [length_flatMap_const (beBytes 8) 8 xs (fun x _ => length_beBytes 8 x), h2.1]
        simp [Value.standard_type, StandardType.nodeSize, StandardType.size, StandardType.count]
    | Double4 xs =>
        simp only [Value.inRange, Bool.and_eq_true, decide_eq_true_eq] at h2
        refine ⟨_, rfl, ?_⟩
        rw [length_flatMap_const (beBytes 8) 8 xs (fun x _ => length_beBytes 8 x), h2.1]
        simp [Value.standard_type, StandardType.nodeSize, StandardType.size, StandardType.count]
    | String s => simp [Value.isFixedSize] at h1
    | Binary s => simp [Value.isFixedSize] at h1
    | Attribute s => simp [Value.isFixedSize] at h1
    | Array t vs => simp [Value.isFixedSize] at h1
    | Node n => simp [Value.isFixedSize] at h1
  · intro t h3 h4 input h5
    rw [from_standard_type_false_eq]
    unfold Value.from_standard_type_single
    split <;>
      first
        | exact absurd rfl h3
        | exact absurd rfl h4
        | exact if_pos ⟨fun hc => hc.elim h3 h4, h5⟩

/-- C4 witness: `S32(-1)` encodes to 4 bytes, and an `s64` parse of the
empty input fails with `SizeMismatch(s64, 8, 0)`. -/
theorem C4_fixed_size_byte_length_witness :
    (∃ bs, (Value.S32 (-1)).to_bytes = .ok bs ∧
       bs.length = (Value.S32 (-1)).standard_type.nodeSize) ∧
    Value.from_standard_type .S64 false [] =
      .err (.sizeMismatch .S64 (StandardType.nodeSize .S64) 0) :=
  ⟨C4_fixed_size_byte_length.1 (Value.S32 (-1)) rfl (by decide),
   C4_fixed_size_byte_length.2 .S64 (by decide) (by decide) [] (by decide)⟩

/-- C2: reading a boolean byte other than 0x00/0x01 is
`InvalidBoolean(byte)`, and boolean text parsing accepts exactly the
strings "0" and "1", returning an error for every other string. -/
theorem C2_boolean_strictness :
    (∀ b : Nat, b < 256 → b ≠ 0 → b ≠ 1 →
       Value.from_standard_type .Boolean false [b] =
         .err (.invalidBoolean b)) ∧
    (∀ fp, Value.from_string fp .Boolean "0" false 1 =
       .ok (.Boolean false)) ∧
    (∀ fp, Value.from_string fp .Boolean "1" false 1 =
       .ok (.Boolean true)) ∧
    (∀ fp (str : Str), str ≠ "0" → str ≠ "1" →
       (Value.from_string fp .Boolean str false 1).isErr) := by
  refine ⟨?b1, fun fp => rfl, fun fp => rfl, ?b4⟩
  · intro b hb256 hb0 hb1
    rw [from_standard_type_false_eq]
    simp [Value.from_standard_type_single, hb0, hb1,
      StandardType.nodeSize, StandardType.size, StandardType.count]
  · intro fp str hs0 hs1
    rw [from_string_false_eq]
    simp only [Value.from_string_single, if_neg hs0, if_neg hs1]
    cases hp : parseUnsigned 256 str <;> simp [hp, PResult.isErr]

/-- C2 witness: the byte 0x07 and the text "2" at concrete inputs. -/
theorem C2_boolean_strictness_witness :
    Value.from_standard_type .Boolean false [7] =
      .err (.invalidBoolean 7) ∧
    (Value.from_string fpNone .Boolean "2" false 1).isErr :=
  ⟨C2_boolean_strictness.1 7 (by decide) (by decide) (by decide),
   C2_boolean_strictness.2.2.2 fpNone "2" (by decide) (by decide)⟩

/-- C7: evaluating `Value::from_string` on the fixed-vector type `2s8`.
With three space-separated parts the indexed write of `parse_tuple`
runs past the `[i8; 2]` output and panics (index out of bounds) instead
of reporting `SizeMismatch(2s8, 2, 3)`; with one part the loop ends
early and `SizeMismatch(2s8, 2, 1)` is reported as the claim says; two
parts parse successfully. -/
theorem C7_parse_tuple_overflow_panics :
    Value.from_string fpNone .S8_2 "1 2 3" false 1 =
      .panic "index out of bounds" ∧
    Value.from_string fpNone .S8_2 "1 2" false 1 = .ok (.S8_2 [1, 2]) ∧
    Value.from_string fpNone .S8_2 "1" false 1 =
      .err (.sizeMismatch .S8_2 2 1) :=
  ⟨rfl, rfl, rfl⟩

/-- C9 counterexample: `ValueArray::from_standard_type` with node type
`Time` does not return `Ok(None)` on every input: the one-byte input
`[0]` (length not a multiple of `time`'s element size 4) is rejected
with `SizeMismatch(time, 4, 1)`. -/
theorem C9_counterexample_time_size_mismatch :
    ValueArray.from_standard_type .Time [0] =
      .err (.sizeMismatch .Time 4 1) ∧
    ValueArray.from_standard_type .Time [0] ≠ .ok none := by
  constructor
  · rfl
  · intro h
    rw [show ValueArray.from_standard_type .Time [0] =
      .err (.sizeMismatch .Time 4 1) from rfl] at h
    exact PResult.noConfusion h

/-- C9 (amended): `Value::from_standard_type` (`is_array == false`)
returns `Ok(None)` for `String` on every input, and for
`NodeStart`/`NodeEnd`/`FileEnd`/`Attribute` exactly on inputs of length
`size * count` (else `SizeMismatch`); `ValueArray::from_standard_type`
returns `Ok(None)` for `Time` exactly when the input length is a
multiple of its element size (else `SizeMismatch`), while for
`NodeStart`/`NodeEnd`/`FileEnd`/`Attribute`/`String`/`Binary` (element
size 0) the length division panics (division by zero) before the type
dispatch is reached. -/
theorem C9_amended_ok_none_domains :
    (∀ input : List Nat,
       Value.from_standard_type .String false input = .ok none) ∧
    (∀ input : List Nat,
       Value.from_standard_type .NodeStart false input =
         if input.length = StandardType.nodeSize .NodeStart then .ok none
         else .err (.sizeMismatch .NodeStart
           (StandardType.nodeSize .NodeStart) input.length)) ∧
    (∀ input : List Nat,
       Value.from_standard_type .NodeEnd false input =
         if input.length = StandardType.nodeSize .NodeEnd then .ok none
         else .err (.sizeMismatch .NodeEnd
           (StandardType.nodeSize .NodeEnd) input.length)) ∧
    (∀ input : List Nat,
       Value.from_standard_type .FileEnd false input =
         if input.length = StandardType.nodeSize .FileEnd then .ok none
         else .err (.sizeMismatch .FileEnd
           (StandardType.nodeSize .FileEnd) input.length)) ∧
    (∀ input : List Nat,
       Value.from_standard_type .Attribute false input =
         if input.length = StandardType.nodeSize .Attribute then .ok none
         else .err (.sizeMismatch .Attribute
           (StandardType.nodeSize .Attribute) input.length)) ∧
    (∀ input : List Nat,
       ValueArray.from_standard_type .Time input =
         if StandardType.nodeSize .Time ∣ input.length then .ok none
         else .err (.sizeMismatch .Time
           (StandardType.nodeSize .Time) input.length)) ∧
    (∀ input : List Nat,
       ValueArray.from_standard_type .NodeStart input =
         .panic "attempt to divide by zero" ∧
       ValueArray.from_standard_type .NodeEnd input =
         .panic "attempt to divide by zero" ∧
       ValueArray.from_standard_type .FileEnd input =
         .panic "attempt to divide by zero" ∧
       ValueArray.from_standard_type .Attribute input =
         .panic "attempt to divide by zero" ∧
       ValueArray.from_standard_type .String input =
         .panic "attempt to divide by zero" ∧
       ValueArray.from_standard_type .Binary input =
         .panic "attempt to divide by zero") := by
  refine ⟨fun input => rfl, ?p_NodeStart, ?p_NodeEnd, ?p_FileEnd,
    ?p_Attribute, ?p_Time, fun input => ⟨rfl, rfl, rfl, rfl, rfl, rfl⟩⟩
  case p_NodeStart =>
    intro input
    have e : Value.from_standard_type .NodeStart false input =
        (if ¬ (StandardType.NodeStart = .String ∨ StandardType.NodeStart = .Binary) ∧
              input.length ≠ StandardType.nodeSize .NodeStart
         then .err (.sizeMismatch .NodeStart (StandardType.nodeSize .NodeStart)
            input.length)
         else .ok none) := rfl
    rw [e]
    by_cases h : input.length = StandardType.nodeSize .NodeStart
    · rw [if_neg (fun hc => hc.2 h), if_pos h]
    · rw [if_pos ⟨by simp, h⟩, if_neg h]
  case p_NodeEnd =>
    intro input
    have e : Value.from_standard_type .NodeEnd false input =
        (if ¬ (StandardType.NodeEnd = .String ∨ StandardType.NodeEnd = .Binary) ∧
              input.length ≠ StandardType.nodeSize .NodeEnd
         then .err (.sizeMismatch .NodeEnd (StandardType.nodeSize .NodeEnd)
            input.length)
         else .ok none) := rfl
    rw [e]
    by_cases h : input.length = StandardType.nodeSize .NodeEnd
    · rw [if_neg (fun hc => hc.2 h), if_pos h]
    · rw [if_pos ⟨by simp, h⟩, if_neg h]
  case p_FileEnd =>
    intro input
    have e : Value.from_standard_type .FileEnd false input =
        (if ¬ (StandardType.FileEnd = .String ∨ StandardType.FileEnd = .Binary) ∧
              input.length ≠ StandardType.nodeSize .FileEnd
         then .err (.sizeMismatch .FileEnd (StandardType.nodeSize .FileEnd)
            input.length)
         else .ok none) := rfl
    rw [e]
    by_cases h : input.length = StandardType.nodeSize .FileEnd
    · rw [if_neg (fun hc => hc.2 h), if_pos h]
    · rw [if_pos ⟨by simp, h⟩, if_neg h]
  case p_Attribute =>
    intro input
    have e : Value.from_standard_type .Attribute false input =
        (if ¬ (StandardType.Attribute = .String ∨ StandardType.Attribute = .Binary) ∧
              input.length ≠ StandardType.nodeSize .Attribute
         then .err (.sizeMismatch .Attribute (StandardType.nodeSize .Attribute)
            input.length)
         else .ok none) := rfl
    rw [e]
    by_cases h : input.length = StandardType.nodeSize .Attribute
    · rw [if_neg (fun hc => hc.2 h), if_pos h]
    · rw [if_pos ⟨by simp, h⟩, if_neg h]
  case p_Time =>
    intro input
    have e : ValueArray.from_standard_type .Time input =
        (if StandardType.nodeSize .Time *
              (input.length / StandardType.nodeSize .Time) ≠ input.length
         then .err (.sizeMismatch .Time (StandardType.nodeSize .Time)
            input.length)
         else .ok none) := rfl
    rw [e]
    by_cases hd : StandardType.nodeSize .Time ∣ input.length
    · rw [if_neg (fun hne => hne (Nat.mul_div_cancel' hd)), if_pos hd]
    · rw [if_pos (fun heq => hd ⟨_, heq.symm⟩), if_neg hd]

theorem parse_attributes_go_collects (enc : EncodingType)
    (attrs : List (List Nat × List Nat)) :
    ∀ nt count size acc r,
      parse_attributes_go enc attrs nt count size acc = .ok r →
      r.2.2.2 = acc.reverse ++
        (attrs.filter (fun kv => decide (kv.1 ≠ typeKeyBytes ∧
          kv.1 ≠ countKeyBytes ∧ kv.1 ≠ sizeKeyBytes))).map
          (fun kv => parse_attribute enc kv.1 kv.2) := by
  induction attrs with
  | nil =>
      intro nt count size acc r h
      simp only [parse_attributes_go] at h
      cases h
      simp
  | cons kv rest ih =>
      obtain ⟨k, v⟩ := kv
      intro nt count size acc r h
      simp only [parse_attributes_go] at h
      by_cases h1 : k = typeKeyBytes
      · rw [if_pos h1] at h
        cases had : asciiDecode v with
        | none => rw [had] at h; exact absurd h (by simp)
        | some sv =>
            rw [had] at h
            dsimp only at h
            cases hfn : StandardType.from_name sv with
            | none => rw [hfn] at h; exact absurd h (by simp)
            | some t =>
                rw [hfn] at h
                dsimp only at h
                rw [ih _ _ _ _ _ h]
                simp [h1]
      · rw [if_neg h1] at h
        by_cases h2 : k = countKeyBytes
        · rw [if_pos h2] at h
          cases had : asciiDecode v with
          | none => rw [had] at h; exact absurd h (by simp)
          | some sv =>
              rw [had] at h
              dsimp only at h
              cases hpn : parseUnsigned (2 ^ 32) sv with
              | none => rw [hpn] at h; exact absurd h (by simp)
              | some n =>
                  rw [hpn] at h
                  dsimp only at h
                  rw [ih _ _ _ _ _ h]
                  simp [h1, h2]
        · rw [if_neg h2] at h
          by_cases h3 : k = sizeKeyBytes
          · rw [if_pos h3] at h
            cases had : asciiDecode v with
            | none => rw [had] at h; exact absurd h (by simp)
            | some sv =>
                rw [had] at h
                dsimp only at h
                cases hpn : parseUnsigned (2 ^ 64) sv with
                | none => rw [hpn] at h; exact absurd h (by simp)
                | some n =>
                    rw [hpn] at h
                    dsimp only at h
                    rw [ih _ _ _ _ _ h]
                    simp [h1, h2, h3]
          · rw [if_neg h3] at h
            rw [ih _ _ _ _ _ h]
            simp [h1, h2, h3]

theorem parse_attributes_go_keeps_type (enc : EncodingType)
    (attrs : List (List Nat × List Nat)) :
    ∀ nt count size acc r,
      (∀ kv ∈ attrs, kv.1 ≠ typeKeyBytes) →
      parse_attributes_go enc attrs nt count size acc = .ok r →
      r.1 = nt.getD .NodeStart := by
  induction attrs with
  | nil =>
      intro nt count size acc r _ h
      simp only [parse_attributes_go] at h
      cases h
      rfl
  | cons kv rest ih =>
      obtain ⟨k, v⟩ := kv
      intro nt count size acc r hk h
      simp only [parse_attributes_go] at h
      have h1 : ¬ k = typeKeyBytes := hk (k, v) (by simp)
      rw [if_neg h1] at h
      by_cases h2 : k = countKeyBytes
      · rw [if_pos h2] at h
        cases had : asciiDecode v with
        | none => rw [had] at h; exact absurd h (by simp)
        | some sv =>
            rw [had] at h
            dsimp only at h
            cases hpn : parseUnsigned (2 ^ 32) sv with
            | none => rw [hpn] at h; exact absurd h (by simp)
            | some n =>
                rw [hpn] at h
                dsimp only at h
                exact ih _ _ _ _ _ (fun kv2 hkv2 => hk kv2 (by simp [hkv2])) h
      · rw [if_neg h2] at h
        by_cases h3 : k = sizeKeyBytes
        · rw [if_pos h3] at h
          cases had : asciiDecode v with
          | none => rw [had] at h; exact absurd h (by simp)
          | some sv =>
              rw [had] at h
              dsimp only at h
              cases hpn : parseUnsigned (2 ^ 64) sv with
              | none => rw [hpn] at h; exact absurd h (by simp)
              | some n =>
                  rw [hpn] at h
                  dsimp only at h
                  exact ih _ _ _ _ _ (fun kv2 hkv2 => hk kv2 (by simp [hkv2])) h
        · rw [if_neg h3] at h
          exact ih _ _ _ _ _ (fun kv2 hkv2 => hk kv2 (by simp [hkv2])) h

theorem parse_attributes_go_keeps_count (enc : EncodingType)
    (attrs : List (List Nat × List Nat)) :
    ∀ nt count size acc r,
      (∀ kv ∈ attrs, kv.1 ≠ countKeyBytes) →
      parse_attributes_go enc attrs nt count size acc = .ok r →
      r.2.1 = count := by
  induction attrs with
  | nil =>
      intro nt count size acc r _ h
      simp only [parse_attributes_go] at h
      cases h
      rfl
  | cons kv rest ih =>
      obtain ⟨k, v⟩ := kv
      intro nt count size acc r hk h
      simp only [parse_attributes_go] at h
      have h2 : ¬ k = countKeyBytes := hk (k, v) (by simp)
      by_cases h1 : k = typeKeyBytes
      · rw [if_pos h1] at h
        cases had : asciiDecode v with
        | none => rw [had] at h; exact absurd h (by simp)
        | some sv =>
            rw [had] at h
            dsimp only at h
            cases hfn : StandardType.from_name sv with
            | none => rw [hfn] at h; exact absurd h (by simp)
            | some t =>
                rw [hfn] at h
                dsimp only at h
                exact ih _ _ _ _ _ (fun kv2 hkv2 => hk kv2 (by simp [hkv2])) h
      · rw [if_neg h1, if_neg h2] at h
        by_cases h3 : k = sizeKeyBytes
        · rw [if_pos h3] at h
          cases had : asciiDecode v with
          | none => rw [had] at h; exact absurd h (by simp)
          | some sv =>
              rw [had] at h
              dsimp only at h
              cases hpn : parseUnsigned (2 ^ 64) sv with
              | none => rw [hpn] at h; exact absurd h (by simp)
              | some n =>
                  rw [hpn] at h
                  dsimp only at h
                  exact ih _ _ _ _ _ (fun kv2 hkv2 => hk kv2 (by simp [hkv2])) h
        · rw [if_neg h3] at h
          exact ih _ _ _ _ _ (fun kv2 hkv2 => hk kv2 (by simp [hkv2])) h

theorem handle_start_ok (enc : EncodingType) (e : StartEvent)
    (col : NodeCollection) (cnt : Nat) (sz : Option Nat)
    (h : handle_start enc e = .ok (col, cnt, sz)) :
    ∃ nt ats,
      parse_attributes enc e.attrs = .ok (nt, cnt, sz, ats) ∧
      col = NodeCollection.mk
        (NodeDefinition.mk enc nt (decide (cnt > 0))
          (.dataSome (.uncompressed enc e.name)
            (match nt with | .String => [0] | _ => [])))
        ats [] := by
  unfold handle_start at h
  obtain ⟨r, hpa, hmk⟩ := PResult.bind_eq_ok h
  obtain ⟨nt, c2, s2, ats⟩ := r
  dsimp only at hmk
  injection hmk with h5
  injection h5 with h6 h7
  injection h7 with h8 h9
  subst h6
  subst h8
  subst h9
  exact ⟨nt, ats, hpa, rfl⟩

/-- C5: a text-XML element carrying no `__type` attribute is given node
type `NodeStart`; a `Text` event arriving while it is open turns it
into `String` with the text stored NUL-terminated. -/
theorem C5_untyped_element_defaults_and_upgrades (enc : EncodingType)
    (e : StartEvent) (fp : FloatParse) (text : List Nat)
    (col : NodeCollection) (cnt : Nat) (sz : Option Nat)
    (hnt : ∀ kv ∈ e.attrs, kv.1 ≠ typeKeyBytes)
    (h : handle_start enc e = .ok (col, cnt, sz)) :
    col.base.node_type = .NodeStart ∧
    handle_text fp text col.base cnt sz =
      .ok (NodeDefinition.mk enc .String col.base.is_array
        (.dataSome (.uncompressed enc e.name) (text ++ [0]))) := by
  obtain ⟨nt, ats, hpa, hcol⟩ := handle_start_ok enc e col cnt sz h
  have hN : nt = .NodeStart := by
    have hh := parse_attributes_go_keeps_type enc e.attrs none 0 none []
      (nt, cnt, sz, ats) hnt hpa
    simpa using hh
  subst hN
  subst hcol
  exact ⟨rfl, rfl⟩

/-- C5 witness: the element `<x a="1">` (no `__type`) with the text
"hi". -/
theorem C5_untyped_element_defaults_and_upgrades_witness :
    (NodeCollection.mk ⟨.UTF_8, .NodeStart, false,
        .dataSome (.uncompressed .UTF_8 [120]) []⟩
      [parse_attribute .UTF_8 [97] [49]] []).base.node_type =
      .NodeStart ∧
    handle_text fpNone [104, 105]
      (NodeCollection.mk ⟨.UTF_8, .NodeStart, false,
          .dataSome (.uncompressed .UTF_8 [120]) []⟩
        [parse_attribute .UTF_8 [97] [49]] []).base 0 none =
      .ok (NodeDefinition.mk .UTF_8 .String
        (NodeCollection.mk ⟨.UTF_8, .NodeStart, false,
            .dataSome (.uncompressed .UTF_8 [120]) []⟩
          [parse_attribute .UTF_8 [97] [49]] []).base.is_array
        (.dataSome (.uncompressed .UTF_8 [120]) [104, 105, 0])) :=
  C5_untyped_element_defaults_and_upgrades .UTF_8 ⟨[120], [([97], [49])]⟩
    fpNone [104, 105] _ 0 none (by decide) rfl

/-- C6 counterexample: the claim says the presence of `__count` sets
the array flag, but `__count="0"` (bytes `[48]`) parses to 0 and
`is_array = count > 0` stays false. -/
theorem C6_counterexample_count_zero :
    handle_start .UTF_8 ⟨[120], [(countKeyBytes, [48])]⟩ =
      .ok (NodeCollection.mk ⟨.UTF_8, .NodeStart, false,
        .dataSome (.uncompressed .UTF_8 [120]) []⟩ [] [], 0, none) ∧
    (NodeCollection.mk ⟨.UTF_8, .NodeStart, false,
        .dataSome (.uncompressed .UTF_8 [120]) []⟩ [] []).base.is_array
      = false :=
  ⟨rfl, rfl⟩

/-- C6 (amended): the array flag of a parsed element is set exactly
when the (last) `__count` attribute parsed to a positive value; an
element without `__count` keeps count 0 and a clear flag. -/
theorem C6_amended_array_flag (enc : EncodingType) (e : StartEvent)
    (col : NodeCollection) (cnt : Nat) (sz : Option Nat)
    (h : handle_start enc e = .ok (col, cnt, sz)) :
    col.base.is_array = decide (0 < cnt) ∧
    ((∀ kv ∈ e.attrs, kv.1 ≠ countKeyBytes) → cnt = 0) := by
  obtain ⟨nt, ats, hpa, hcol⟩ := handle_start_ok enc e col cnt sz h
  subst hcol
  constructor
  · rfl
  · intro hnc
    have hh := parse_attributes_go_keeps_count enc e.attrs none 0 none []
      (nt, cnt, sz, ats) hnc hpa
    simpa using hh

/-- C6 witness: `__count="3"` sets the flag; the element with only the
plain attribute `a="1"` keeps count 0. -/
theorem C6_amended_array_flag_witness :
    ((NodeCollection.mk ⟨.UTF_8, .NodeStart, true,
        .dataSome (.uncompressed .UTF_8 [120]) []⟩ [] []).base.is_array
      = decide (0 < 3) ∧
     ((∀ kv ∈ (⟨[120], [(countKeyBytes, [51])]⟩ : StartEvent).attrs,
         kv.1 ≠ countKeyBytes) → 3 = 0)) ∧
    ((NodeCollection.mk ⟨.UTF_8, .NodeStart, false,
        .dataSome (.uncompressed .UTF_8 [120]) []⟩
      [parse_attribute .UTF_8 [97] [49]] []).base.is_array
      = decide (0 < 0) ∧
     ((∀ kv ∈ (⟨[120], [([97], [49])]⟩ : StartEvent).attrs,
         kv.1 ≠ countKeyBytes) → 0 = 0)) :=
  ⟨C6_amended_array_flag .UTF_8 ⟨[120], [(countKeyBytes, [51])]⟩ _ 3 none
     rfl,
   C6_amended_array_flag .UTF_8 ⟨[120], [([97], [49])]⟩ _ 0 none rfl⟩

/-- C8: attribute order is preserved — the text reader collects the
non-reserved attributes of an element in document order, and
`Node::set_attr` (IndexMap insert) keeps an existing key at its
original position and appends a new key at the end, so iteration
yields insertion order. -/
theorem C8_attribute_order_preserved :
    (∀ (enc : EncodingType) (attrs : List (List Nat × List Nat))
       (nt : StandardType) (cnt : Nat) (sz : Option Nat)
       (defs : List NodeDefinition),
       parse_attributes enc attrs = .ok (nt, cnt, sz, defs) →
       defs = (attrs.filter (fun kv => decide (kv.1 ≠ typeKeyBytes ∧
           kv.1 ≠ countKeyBytes ∧ kv.1 ≠ sizeKeyBytes))).map
         (fun kv => parse_attribute enc kv.1 kv.2)) ∧
    (∀ (n : Node) (k v : Str),
       (((Node.set_attr n k v).1.attributes).getD []).map Prod.fst =
         (if k ∈ ((n.attributes).getD []).map Prod.fst
          then ((n.attributes).getD []).map Prod.fst
          else ((n.attributes).getD []).map Prod.fst ++ [k])) := by
  constructor
  · intro enc attrs nt cnt sz defs h
    have hh := parse_attributes_go_collects enc attrs none 0 none []
      (nt, cnt, sz, defs) h
    simpa using hh
  · intro n k v
    obtain ⟨key, attrs, ch, val⟩ := n
    simp only [Node.set_attr, KNodeP.attributes]
    unfold imInsert
    cases hf : (attrs.getD []).find? (fun p => p.1 = k) with
    | some p =>
        have hpk : p.1 = k := by
          have hp := List.find?_some hf
          simpa using hp
        have hpm := List.mem_of_find?_eq_some hf
        have hkmem : k ∈ (attrs.getD []).map Prod.fst :=
          hpk ▸ List.mem_map_of_mem Prod.fst hpm
        rw [if_pos hkmem]
        simp only [Option.getD_some, List.map_map]
        apply List.map_congr_left
        intro q hq
        by_cases hqk : q.1 = k <;> simp [hqk]
    | none =>
        have hkn : ¬ k ∈ (attrs.getD []).map Prod.fst := by
          intro hk
          obtain ⟨q, hqm, hqk⟩ := List.mem_map.mp hk
          have hq := List.find?_eq_none.mp hf q hqm
          simp [hqk] at hq
        rw [if_neg hkn]
        simp

/-- C8 witness: the attributes `a="1" b="2"` (bytes 97/98) collect in
document order, and re-inserting the existing key "a" keeps the key
order `a, b`. -/
theorem C8_attribute_order_preserved_witness :
    ([parse_attribute .UTF_8 [97] [49], parse_attribute .UTF_8 [98] [50]] =
      (([([97], [49]), ([98], [50])] : List (List Nat × List Nat)).filter
         (fun kv => decide (kv.1 ≠ typeKeyBytes ∧ kv.1 ≠ countKeyBytes ∧
            kv.1 ≠ sizeKeyBytes))).map
        (fun kv => parse_attribute .UTF_8 kv.1 kv.2)) ∧
    ((((Node.set_attr (KNodeP.mk "x" (some [("a", "1"), ("b", "2")])
          (none : Option (List Node)) (none : Option Value)) "a" "9").1.attributes).getD
        []).map Prod.fst =
      (if "a" ∈ (((KNodeP.mk "x" (some [("a", "1"), ("b", "2")])
            (none : Option (List Node))
            (none : Option Value)).attributes).getD []).map Prod.fst
       then (((KNodeP.mk "x" (some [("a", "1"), ("b", "2")])
            (none : Option (List Node))
            (none : Option Value)).attributes).getD []).map Prod.fst
       else (((KNodeP.mk "x" (some [("a", "1"), ("b", "2")])
            (none : Option (List Node))
            (none : Option Value)).attributes).getD []).map Prod.fst ++
          ["a"])) :=
  ⟨C8_attribute_order_preserved.1 .UTF_8 [([97], [49]), ([98], [50])]
     .NodeStart 0 none
     [parse_attribute .UTF_8 [97] [49], parse_attribute .UTF_8 [98] [50]]
     rfl,
   C8_attribute_order_preserved.2
     (KNodeP.mk "x" (some [("a", "1"), ("b", "2")])
       (none : Option (List Node)) (none : Option Value)) "a" "9"⟩

/-- C10: every attribute definition built by the text reader has node
type `Attribute`, a clear array flag, and the attribute text followed
by exactly one NUL byte as its value data; a string-typed element
starts with (and, with no text event, keeps) the single-NUL stub
`[0x00]`. -/
theorem C10_attribute_definition_shape :
    (∀ (enc : EncodingType) (k v : List Nat),
       parse_attribute enc k v =
         NodeDefinition.mk enc .Attribute false
           (.dataSome (.uncompressed enc k) (v ++ [0]))) ∧
    (∀ (enc : EncodingType) (e : StartEvent) (col : NodeCollection)
       (cnt : Nat) (sz : Option Nat),
       handle_start enc e = .ok (col, cnt, sz) →
       col.base.node_type = .String →
       col.base.value_data = [0]) := by
  constructor
  · intro enc k v
    rfl
  · intro enc e col cnt sz h hstr
    obtain ⟨nt, ats, hpa, hcol⟩ := handle_start_ok enc e col cnt sz h
    subst hcol
    have hN : nt = .String := hstr
    subst hN
    rfl

/-- C10 witness: the attribute `a="12"` and the element
`<x __type="str">` (value stub `[0]`). -/
theorem C10_attribute_definition_shape_witness :
    parse_attribute .UTF_8 [97] [49, 50] =
      NodeDefinition.mk .UTF_8 .Attribute false
        (.dataSome (.uncompressed .UTF_8 [97]) [49, 50, 0]) ∧
    (NodeCollection.mk ⟨.UTF_8, .String, false,
        .dataSome (.uncompressed .UTF_8 [120]) [0]⟩ [] []).base.value_data
      = [0] :=
  ⟨C10_attribute_definition_shape.1 .UTF_8 [97] [49, 50],
   C10_attribute_definition_shape.2 .UTF_8
     ⟨[120], [(typeKeyBytes, [115, 116, 114])]⟩ _ 0 none rfl rfl⟩

end Kbin
